import Mathlib

/-!
Verification development for the wikipedia-analyser repository
(Go sources under internal/analyzer).

Shallow embedding conventions:
* Timestamps are already-parsed clock values in whole seconds (`Int`);
  the Go code parses ISO-8601 strings into `time.Time` before any of the
  logic modelled here runs. `time.Duration` differences in seconds;
  `Duration.Minutes()/Hours()` truncations use `Int.tdiv`, matching Go's
  `int(...)` conversion which truncates toward zero.
* Go `float64` quantities are modelled as exact rationals (`ℚ`).
  The one place the Go code can divide by zero in floating point is
  flagged and modelled explicitly where it occurs.
* Go maps that are only counted or summed over are modelled as
  association lists in insertion order.
* `strings.ToLower`/`strings.Contains` are modelled on character lists;
  lowering is ASCII lowering (all keyword tables in the source are ASCII).
-/

namespace WikiAnalyser

/-- ASCII lower-casing of one character (the keyword tables in the source
are ASCII, so this matches Go's strings.ToLower on all relevant inputs). -/
def asciiLower (c : Char) : Char :=
  if 65 ≤ c.toNat ∧ c.toNat ≤ 90 then Char.ofNat (c.toNat + 32) else c

/-- Lower-cased character list of a string. -/
def lowerData (s : String) : List Char := s.data.map asciiLower

/-- Does `hay` start with `pat`? -/
def hasPre : List Char → List Char → Bool
  | [], _ => true
  | _ :: _, [] => false
  | p :: ps, h :: hs => p == h && hasPre ps hs

/-- Does `hay` contain `pat` as a contiguous sublist?
Models Go's strings.Contains. -/
def hasSub (hay pat : List Char) : Bool :=
  match hay with
  | [] => pat.isEmpty
  | _ :: t => hasPre pat hay || hasSub t pat

/-- Go pattern strings.Contains(strings.ToLower(hay), pat)
where pat is a lower-case literal. -/
def containsLower (hay : String) (pat : String) : Bool :=
  hasSub (lowerData hay) pat.data

/-- Clamping used at the end of every scorer: `if score > 100 { score = 100 }`. -/
def clamp100 (s : Int) : Int := if s > 100 then 100 else s

/-! ## Event model (models.EditEvent, as filled by extractRevisions) -/

/-- models.EditEvent with the fields populated by
CrossPageAnalyzer.extractRevisions. -/
structure EditEvent where
  timestamp : Int
  username : String
  pageTitle : String
  revisionID : Int
  sizeDiff : Int
  comment : String
  isRevert : Bool
deriving DecidableEq

/-! ## Cross-page support-event detection (internal/analyzer/cross_page.go) -/

/-- CrossPageAnalyzer.isContentRestoration:
edit1 removed more than 100 chars and edit2 added more than 50. -/
def isContentRestoration (e1 e2 : EditEvent) : Bool :=
  e1.sizeDiff < -100 && e2.sizeDiff > 50

/-- The defensive-keyword table of CrossPageAnalyzer.isDefensiveEdit. -/
def defensiveWords : List String :=
  ["restore", "fix", "correct", "undo", "revert vandalism", "rv"]

/-- CrossPageAnalyzer.isDefensiveEdit: edit2's comment contains a
defensive keyword (edit1 is unused in the source as well). -/
def isDefensiveEdit (_e1 e2 : EditEvent) : Bool :=
  defensiveWords.any (fun w => containsLower e2.comment w)

/-- CrossPageAnalyzer.isSupportEvent. -/
def isSupportEvent (edit1 edit2 : EditEvent) (userA userB : String) : Bool :=
  if edit1.pageTitle != edit2.pageTitle then false
  else if edit1.username == edit2.username then false
  else if edit2.username != userA && edit2.username != userB then false
  else
    edit1.isRevert || edit2.isRevert ||
      isContentRestoration edit1 edit2 || isDefensiveEdit edit1 edit2

/-- CrossPageAnalyzer.determineSupportType. -/
def determineSupportType (edit1 edit2 : EditEvent) : String :=
  if edit1.isRevert && !edit2.isRevert then "revert_defense"
  else if edit2.isRevert then "counter_revert"
  else if isContentRestoration edit1 edit2 then "content_restoration"
  else "defensive_edit"

/-- CrossPageAnalyzer.determineSupportedUser. -/
def determineSupportedUser (_edit1 edit2 : EditEvent) (userA userB : String) : String :=
  if edit2.username == userA then userB
  else if edit2.username == userB then userA
  else ""

/-- models.MutualSupportEvent. -/
structure MutualSupportEvent where
  timestamp : Int
  pageTitle : String
  supportType : String
  reactionTime : Int
  attackerUser : String
  defenderUser : String
  supportedUser : String
  revisionID : Int
  comment : String
deriving DecidableEq

/-- reactionTime := int(nextEdit.Timestamp.Sub(currentEdit.Timestamp).Minutes()). -/
def reactionMinutes (e1 e2 : EditEvent) : Int :=
  Int.tdiv (e2.timestamp - e1.timestamp) 60

/-- The MutualSupportEvent literal built inside findSupportEvents. -/
def mkSupportEvent (e1 e2 : EditEvent) (userA userB : String) : MutualSupportEvent :=
  { timestamp := e2.timestamp
    pageTitle := e2.pageTitle
    supportType := determineSupportType e1 e2
    reactionTime := reactionMinutes e1 e2
    attackerUser := e1.username
    defenderUser := e2.username
    supportedUser := determineSupportedUser e1 e2 userA userB
    revisionID := e2.revisionID
    comment := e2.comment }

/-- One inner-loop step of findSupportEvents: the candidate (e1, e2) is kept
when isSupportEvent holds and the reaction time is within maxReactionTime. -/
def supportCandidate (maxReactionTime : Int) (userA userB : String)
    (e1 e2 : EditEvent) : Option MutualSupportEvent :=
  if isSupportEvent e1 e2 userA userB then
    if reactionMinutes e1 e2 ≤ maxReactionTime then
      some (mkSupportEvent e1 e2 userA userB)
    else none
  else none

/-- CrossPageAnalyzer.findSupportEvents.  The Go loops are
`for i := 0; i < len-1; i++ { for j := i+1; j < len && j < i+10; j++ }`,
so for each event at index i exactly the events at indices i+1 .. i+9
(the next up to nine events) are examined; `rest.take 9` is that window. -/
def findSupportEvents (maxReactionTime : Int) (userA userB : String) :
    List EditEvent → List MutualSupportEvent
  | [] => []
  | e1 :: rest =>
      (rest.take 9).filterMap (supportCandidate maxReactionTime userA userB e1) ++
        findSupportEvents maxReactionTime userA userB rest

/-! ## Pair metrics (cross_page.go calculation functions) -/

/-- One step of the (aSupportsB, bSupportsA) tally shared by the ratio
and reciprocity calculations: the if / else-if over one event. -/
def countSupportsStep (userA userB : String) (ab : Int × Int) (ev : MutualSupportEvent) :
    Int × Int :=
  if ev.defenderUser == userA && ev.supportedUser == userB then (ab.1 + 1, ab.2)
  else if ev.defenderUser == userB && ev.supportedUser == userA then (ab.1, ab.2 + 1)
  else ab

/-- Counts (aSupportsB, bSupportsA) over the event list. -/
def countSupports (events : List MutualSupportEvent) (userA userB : String) : Int × Int :=
  events.foldl (countSupportsStep userA userB) (0, 0)

/-- CrossPageAnalyzer.calculateMutualSupportRatio (ℚ models float64). -/
def calculateMutualSupportRate (events : List MutualSupportEvent)
    (userA userB : String) : ℚ :=
  if events.length = 0 then 0
  else
    let c := countSupports events userA userB
    let totalSupport := c.1 + c.2
    if totalSupport = 0 then 0
    else (totalSupport : ℚ) / ((events.length : Int) : ℚ)

/-- CrossPageAnalyzer.calculateAverageReactionTime (Go int division). -/
def calculateAverageReactionTime (events : List MutualSupportEvent) : Int :=
  if events.length = 0 then 0
  else Int.tdiv (events.foldl (fun s ev => s + ev.reactionTime) 0) (events.length : Int)

/-- CrossPageAnalyzer.calculateReciprocityScore. -/
def calculateReciprocityScore (events : List MutualSupportEvent)
    (userA userB : String) : ℚ :=
  let c := countSupports events userA userB
  if c.1 = 0 ∧ c.2 = 0 then 0
  else
    let mn := min c.1 c.2
    let mx := max c.1 c.2
    if mx = 0 then 0 else (mn : ℚ) / (mx : ℚ)

/-- CrossPageAnalyzer.calculateExclusivityRatio (the contributors argument
is unused in the source as well). -/
def calculateExclusivityRate (events : List MutualSupportEvent)
    (userA userB : String) : ℚ :=
  let mutualEvents :=
    (events.filter
      (fun ev =>
        (ev.defenderUser == userA && ev.supportedUser == userB) ||
          (ev.defenderUser == userB && ev.supportedUser == userA))).length
  if events.length = 0 then 0
  else ((mutualEvents : Int) : ℚ) / ((events.length : Int) : ℚ)

/-- CrossPageAnalyzer.determineSupportSuspicionLevel: each banded if /
else-if block contributes its points to the running score. -/
def determineSupportSuspicionLevel (mutualRate avgReactionTime reciprocity exclusivity : ℚ) :
    String :=
  let s1 : Int :=
    if mutualRate > 7/10 then 3
    else if mutualRate > 1/2 then 2
    else if mutualRate > 3/10 then 1
    else 0
  let s2 : Int :=
    if avgReactionTime < 10 then 3
    else if avgReactionTime < 30 then 2
    else if avgReactionTime < 60 then 1
    else 0
  let s3 : Int :=
    if reciprocity > 4/5 then 2
    else if reciprocity > 3/5 then 1
    else 0
  let s4 : Int :=
    if exclusivity > 9/10 then 2
    else if exclusivity > 7/10 then 1
    else 0
  let score := s1 + s2 + s3 + s4
  if score ≥ 8 then "VERY_HIGH"
  else if score ≥ 6 then "HIGH"
  else if score ≥ 4 then "MODERATE"
  else if score ≥ 2 then "LOW"
  else "NONE"

/-- Modelled from the spec (§4.4 step 5), stated independently of the
code for comparison: an additive point score from four banded
contributions — support ratio (>0.7→3, >0.5→2, >0.3→1), average reaction
time (<10→3, <30→2, <60→1), reciprocity (>0.8→2, >0.6→1), exclusivity
(>0.9→2, >0.7→1) — mapped to NONE(<2), LOW(≥2), MODERATE(≥4), HIGH(≥6),
VERY_HIGH(≥8). -/
def specSuspicionLevel (mutualRate avgReactionTime reciprocity exclusivity : ℚ) : String :=
  let points : Int :=
    (if mutualRate > 7/10 then 3
     else if mutualRate > 5/10 then 2
     else if mutualRate > 3/10 then 1
     else 0) +
    (if avgReactionTime < 10 then 3
     else if avgReactionTime < 30 then 2
     else if avgReactionTime < 60 then 1
     else 0) +
    (if reciprocity > 8/10 then 2
     else if reciprocity > 6/10 then 1
     else 0) +
    (if exclusivity > 9/10 then 2
     else if exclusivity > 7/10 then 1
     else 0)
  if points ≥ 8 then "VERY_HIGH"
  else if points ≥ 6 then "HIGH"
  else if points ≥ 4 then "MODERATE"
  else if points ≥ 2 then "LOW"
  else "NONE"

/-- CrossPageAnalyzer.getSuspicionLevelScore. -/
def getSuspicionLevelScore (level : String) : Int :=
  if level == "VERY_HIGH" then 5
  else if level == "HIGH" then 4
  else if level == "MODERATE" then 3
  else if level == "LOW" then 2
  else if level == "NONE" then 1
  else 0

/-- First-occurrence de-duplication; models collecting into a Go
map[string]bool and listing its distinct keys. -/
def dedupFirst : List String → List String
  | [] => []
  | x :: xs => x :: (dedupFirst xs).filter (fun y => y ≠ x)

/-! ## Edit-war window detector (PageAnalyzer.detectEditWarPeriods) -/

/-- The fields of models.WikiRevision read by the edit-war detector
(timestamps pre-parsed to seconds). -/
structure WikiRev where
  timestamp : Int
  user : String
deriving DecidableEq

/-- models.EditWarPeriod. -/
structure EditWarPeriod where
  startTime : Int
  endTime : Int
  participants : List String
  revisionCount : Int
deriving DecidableEq

/-- The period literal built for the window starting at index i
(participants are the distinct users of the five windowed revisions). -/
def mkWarPeriod (revs : List WikiRev) (i : Nat) (r0 r4 : WikiRev) : EditWarPeriod :=
  { startTime := r0.timestamp
    endTime := r4.timestamp
    participants := dedupFirst (((revs.drop i).take 5).map (fun r => r.user))
    revisionCount := 5 }

/-- PageAnalyzer.detectEditWarPeriods: a 5-revision window slides one
revision at a time (`for i := 0; i <= len-5; i++`); a window whose span
t[i+4] - t[i] is at most 24 hours (86400 s) emits one EditWarPeriod. -/
def detectEditWarPeriods (revs : List WikiRev) : List EditWarPeriod :=
  if revs.length < 5 then []
  else
    (List.range (revs.length - 4)).filterMap (fun i =>
      match revs.get? i, revs.get? (i + 4) with
      | some r0, some r4 =>
          if r4.timestamp - r0.timestamp ≤ 86400 then
            some (mkWarPeriod revs i r0 r4)
          else none
      | _, _ => none)

/-- Does the 5-revision window at index i exist and have span at most 24
hours?  (Characterization helper for the edit-war detector.) -/
def warWindowQualifies (revs : List WikiRev) (i : Nat) : Bool :=
  match revs.get? i, revs.get? (i + 4) with
  | some r0, some r4 => decide (r4.timestamp - r0.timestamp ≤ 86400)
  | _, _ => false

/-- Total variant of mkWarPeriod (characterization helper). -/
def warPeriodAt (revs : List WikiRev) (i : Nat) : EditWarPeriod :=
  match revs.get? i, revs.get? (i + 4) with
  | some r0, some r4 => mkWarPeriod revs i r0 r4
  | _, _ => { startTime := 0, endTime := 0, participants := [], revisionCount := 0 }

/-! ## Mutual-support pair detection (detectMutualSupport) -/

/-- models.CommonContributor. -/
structure CommonContributor where
  username : String
  userID : Int
  pagesEdited : List String
  totalEdits : Int
  editsByPage : List (String × Int)
  firstEdit : Int
  lastEdit : Int
  suspicionScore : Int
  suspicionFlags : List String
  mutualSupportEvents : List MutualSupportEvent
  isAnonymous : Bool
deriving DecidableEq

/-- CrossPageAnalyzer.createUserPairs: all i < j pairs with both
contributors non-anonymous, in loop order. -/
def createUserPairs : List CommonContributor → List (String × String)
  | [] => []
  | c :: rest =>
      (rest.filterMap (fun d =>
        if !c.isAnonymous && !d.isAnonymous then some (c.username, d.username)
        else none)) ++ createUserPairs rest

/-- models.MutualSupportPair. -/
structure MutualSupportPair where
  userA : String
  userB : String
  supportEvents : List MutualSupportEvent
  mutualSupportRate : ℚ
  averageReactionTime : Int
  reciprocityScore : ℚ
  exclusivityRate : ℚ
  pagesInvolved : List String
  suspicionLevel : String
deriving DecidableEq

/-- CrossPageAnalyzer.extractPagesFromSupportEvents (distinct page titles). -/
def extractPagesFromSupportEvents (events : List MutualSupportEvent) : List String :=
  dedupFirst (events.map (fun ev => ev.pageTitle))

/-- The body of detectMutualSupport's per-pair loop: pairs with no support
events are skipped, metrics and suspicion level are derived, and pairs
classified NONE are dropped. -/
def evalPair (maxReactionTime : Int) (sortedRevs : List EditEvent)
    (pair : String × String) : Option MutualSupportPair :=
  let supportEvents := findSupportEvents maxReactionTime pair.1 pair.2 sortedRevs
  if supportEvents.length = 0 then none
  else
    let msr := calculateMutualSupportRate supportEvents pair.1 pair.2
    let art := calculateAverageReactionTime supportEvents
    let recip := calculateReciprocityScore supportEvents pair.1 pair.2
    let excl := calculateExclusivityRate supportEvents pair.1 pair.2
    let lvl := determineSupportSuspicionLevel msr (art : ℚ) recip excl
    if lvl ≠ "NONE" then
      some
        { userA := pair.1
          userB := pair.2
          supportEvents := supportEvents
          mutualSupportRate := msr
          averageReactionTime := art
          reciprocityScore := recip
          exclusivityRate := excl
          pagesInvolved := extractPagesFromSupportEvents supportEvents
          suspicionLevel := lvl }
    else none

/-- The sort order of detectMutualSupport's final sort.Slice: descending
by suspicion-level score, ties broken by descending mutual-support ratio. -/
def pairOrd (a b : MutualSupportPair) : Prop :=
  getSuspicionLevelScore b.suspicionLevel < getSuspicionLevelScore a.suspicionLevel ∨
    (getSuspicionLevelScore a.suspicionLevel = getSuspicionLevelScore b.suspicionLevel ∧
      b.mutualSupportRate ≤ a.mutualSupportRate)

instance : DecidableRel pairOrd := fun a b => by
  unfold pairOrd; infer_instance

instance : IsTotal MutualSupportPair pairOrd :=
  ⟨by
    intro a b
    unfold pairOrd
    rcases lt_trichotomy (getSuspicionLevelScore a.suspicionLevel)
        (getSuspicionLevelScore b.suspicionLevel) with h | h | h
    · exact Or.inr (Or.inl h)
    · rcases le_total a.mutualSupportRate b.mutualSupportRate with h2 | h2
      · exact Or.inr (Or.inr ⟨h.symm, h2⟩)
      · exact Or.inl (Or.inr ⟨h, h2⟩)
    · exact Or.inl (Or.inl h)⟩

instance : IsTrans MutualSupportPair pairOrd :=
  ⟨by
    intro a b c hab hbc
    unfold pairOrd at *
    rcases hab with h1 | ⟨h1, h1r⟩ <;> rcases hbc with h2 | ⟨h2, h2r⟩
    · exact Or.inl (lt_trans h2 h1)
    · exact Or.inl (h2 ▸ h1)
    · exact Or.inl (lt_of_lt_of_le h2 (le_of_eq h1.symm))
    · exact Or.inr ⟨h1.trans h2, le_trans h2r h1r⟩⟩

/-- The timestamp order of detectMutualSupport's initial sort.Slice on
the global revision list. -/
def revTimeOrd (a b : EditEvent) : Prop := a.timestamp ≤ b.timestamp

instance : DecidableRel revTimeOrd := fun a b => by
  unfold revTimeOrd; infer_instance

instance : IsTotal EditEvent revTimeOrd :=
  ⟨fun a b => le_total a.timestamp b.timestamp⟩

instance : IsTrans EditEvent revTimeOrd :=
  ⟨fun _ _ _ hab hbc => le_trans hab hbc⟩

/-- CrossPageAnalyzer.detectMutualSupport: sort events by timestamp,
evaluate every candidate pair, keep the non-NONE pairs, sort them by
(suspicion level, mutual-support ratio) descending. -/
def detectMutualSupport (maxReactionTime : Int)
    (contributors : List CommonContributor) (revisions : List EditEvent) :
    List MutualSupportPair :=
  let sortedRevs := List.insertionSort revTimeOrd revisions
  let userPairs := createUserPairs contributors
  let raw := userPairs.filterMap (evalPair maxReactionTime sortedRevs)
  List.insertionSort pairOrd raw

/-! ## Cross-page options (models.CrossPageAnalysisOptions, with the
defaults of NewCrossPageAnalyzer) -/

structure CrossPageAnalysisOptions where
  maxRevisionsPerPage : Int
  maxContributorsPerPage : Int
  historyDays : Int
  minCommonEdits : Int
  maxReactionTime : Int
  minMutualSupportRate : ℚ
deriving DecidableEq

/-- The zero-value defaulting at the top of NewCrossPageAnalyzer. -/
def applyCrossPageDefaults (o : CrossPageAnalysisOptions) : CrossPageAnalysisOptions :=
  { maxRevisionsPerPage := if o.maxRevisionsPerPage = 0 then 200 else o.maxRevisionsPerPage
    maxContributorsPerPage :=
      if o.maxContributorsPerPage = 0 then 50 else o.maxContributorsPerPage
    historyDays := if o.historyDays = 0 then 90 else o.historyDays
    minCommonEdits := if o.minCommonEdits = 0 then 3 else o.minCommonEdits
    maxReactionTime := if o.maxReactionTime = 0 then 60 else o.maxReactionTime
    minMutualSupportRate := if o.minMutualSupportRate = 0 then 3/10 else o.minMutualSupportRate }

/-! ## Generic weighted-rule evaluation

Each scorer in the source is a sequence of blocks
`if cond { score += w; flags = append(flags, name) }`; `applyRule` is the
transcription of one such block.  `rulesScore`/`rulesFlags` describe the
same computation as the spec does: the sum of the weights of the fired
rules and the list of their names in evaluation order. -/

def applyRule (acc : Int × List String) (r : Bool × Int × String) : Int × List String :=
  if r.1 then (acc.1 + r.2.1, acc.2 ++ [r.2.2]) else acc

/-- Sum of the weights of the rules whose predicate fired. -/
def rulesScore : List (Bool × Int × String) → Int
  | [] => 0
  | (b, w, _) :: rs => (if b then w else 0) + rulesScore rs

/-- Names of the rules whose predicate fired, in evaluation order. -/
def rulesFlags : List (Bool × Int × String) → List String
  | [] => []
  | (b, _, n) :: rs => (if b then [n] else []) ++ rulesFlags rs

/-- Days elapsed: int(time.Since(t).Hours() / 24) with `now` the current
clock reading, truncation toward zero as in Go. -/
def daysSince (now t : Int) : Int := Int.tdiv (now - t) 86400

/-- Go float64(a)/float64(b) > 0.5, including the IEEE behaviour at b = 0
(a/0 is +Inf for a > 0, NaN for a = 0, -Inf for a < 0). -/
def floatRatioGtHalf (a b : Int) : Bool :=
  if b = 0 then decide (0 < a) else decide ((a : ℚ) / (b : ℚ) > 1/2)

/-! ## Page-level scorer (PageAnalyzer.calculateSuspicionScore) -/

/-- models.TopContributor (fields read by the embedded functions). -/
structure TopContributor where
  username : String
  userID : Int
  editCount : Int
  firstEdit : Int
  lastEdit : Int
  totalSizeDiff : Int
  isAnonymous : Bool
  isRegistered : Bool
  suspicionScore : Int
  suspicionFlags : List String
deriving DecidableEq

/-- models.ConflictStats (fields read by the page scorer). -/
structure ConflictStats where
  reversionsCount : Int
  recentConflicts : Int
  stabilityScore : ℚ
  controversyScore : ℚ
deriving DecidableEq

/-- models.QualityMetrics (fields read by the page scorer). -/
structure QualityMetrics where
  averageEditSize : ℚ
  anonymousEditRate : ℚ
  recentActivityBurst : Bool
  contributorDiversity : ℚ
deriving DecidableEq

/-- models.Revision (fields read by extractRevisions). -/
structure Revision where
  revID : Int
  username : String
  timestamp : Int
  comment : String
  sizeDiff : Int
  isRevert : Bool
deriving DecidableEq

/-- models.PageProfile (fields read by the embedded functions). -/
structure PageProfile where
  pageTitle : String
  totalRevisions : Int
  contributors : List TopContributor
  recentRevisions : List Revision
  conflictStats : ConflictStats
  qualityMetrics : QualityMetrics
deriving DecidableEq

/-- The rule table of PageAnalyzer.calculateSuspicionScore, in source
order: (fired, weight, flag name). -/
def pageRules (now : Int) (p : PageProfile) : List (Bool × Int × String) :=
  [ (decide (p.conflictStats.controversyScore > 3/10), 25, "PAGE_HIGH_CONFLICT"),
    (decide (p.contributors.length < 5 ∧ p.totalRevisions > 100), 20,
      "PAGE_FEW_CONTRIBUTORS"),
    (p.qualityMetrics.recentActivityBurst, 15, "PAGE_RECENT_INTENSIVE_ACTIVITY"),
    (decide (p.qualityMetrics.anonymousEditRate > 1/2), 15, "PAGE_ANONYMOUS_HEAVY_EDITING"),
    ((match p.contributors with
      | [] => false
      | top :: _ =>
          decide (daysSince now top.firstEdit < 30) &&
            floatRatioGtHalf top.editCount p.totalRevisions), 20,
      "PAGE_NEW_EDITOR_DOMINANCE"),
    (decide (p.qualityMetrics.contributorDiversity < 3/10), 10, "PAGE_LOW_DIVERSITY"),
    (decide (p.conflictStats.recentConflicts > 5), 15, "PAGE_RECENT_CONFLICTS") ]

/-- The score/flags accumulation of PageAnalyzer.calculateSuspicionScore:
seven if-blocks in source order.  Each `applyRule acc (cond, w, name)` is
one Go block `if cond { score += w; flags = append(flags, name) }`. -/
def pageScoreAcc (now : Int) (p : PageProfile) : Int × List String :=
  let acc : Int × List String := (0, [])
  let acc := applyRule acc
    (decide (p.conflictStats.controversyScore > 3/10), 25, "PAGE_HIGH_CONFLICT")
  let acc := applyRule acc
    (decide (p.contributors.length < 5 ∧ p.totalRevisions > 100), 20,
      "PAGE_FEW_CONTRIBUTORS")
  let acc := applyRule acc
    (p.qualityMetrics.recentActivityBurst, 15, "PAGE_RECENT_INTENSIVE_ACTIVITY")
  let acc := applyRule acc
    (decide (p.qualityMetrics.anonymousEditRate > 1/2), 15,
      "PAGE_ANONYMOUS_HEAVY_EDITING")
  let acc := applyRule acc
    ((match p.contributors with
      | [] => false
      | top :: _ =>
          decide (daysSince now top.firstEdit < 30) &&
            floatRatioGtHalf top.editCount p.totalRevisions), 20,
      "PAGE_NEW_EDITOR_DOMINANCE")
  let acc := applyRule acc
    (decide (p.qualityMetrics.contributorDiversity < 3/10), 10, "PAGE_LOW_DIVERSITY")
  let acc := applyRule acc
    (decide (p.conflictStats.recentConflicts > 5), 15, "PAGE_RECENT_CONFLICTS")
  acc

/-- PageAnalyzer.calculateSuspicionScore: the accumulation followed by
the clamp to 100. -/
def pageCalculateSuspicionScore (now : Int) (p : PageProfile) : Int × List String :=
  (clamp100 (pageScoreAcc now p).1, (pageScoreAcc now p).2)

/-! ## Contributor-level scorer (UserAnalyzer.calculateSuspicionScore) -/

/-- models.BlockInfo (field read by the user scorer). -/
structure BlockInfoW where
  blocked : Bool
deriving DecidableEq

/-- models.PageEditSummary (fields read by the user scorer). -/
structure PageEditSummary where
  pageTitle : String
  editCount : Int
deriving DecidableEq

/-- models.Contribution. -/
structure Contribution where
  revID : Int
  pageTitle : String
  ns : Int
  timestamp : Int
  comment : String
  sizeDiff : Int
deriving DecidableEq

/-- models.RevokedContribution. -/
structure RevokedContribution where
  originalContrib : Contribution
  revokedBy : String
  revokedAt : Int
  revertComment : String
  pageTitle : String
  revertType : String
deriving DecidableEq

/-- models.UserProfile (fields read by the user scorer).
`revokedRate` is the Go field RevokedRatio. -/
structure UserProfile where
  username : String
  userID : Int
  editCount : Int
  groups : List String
  registrationDate : Option Int
  blockInfo : Option BlockInfoW
  topPages : List PageEditSummary
  namespaceDistrib : List (String × Int)
  recentContribs : List Contribution
  revokedContribs : List RevokedContribution
  revokedCount : Int
  revokedRate : ℚ
  revertedByUsers : List (String × Int)
deriving DecidableEq

/-- The sensitive-namespace table of user rule 5. -/
def sensitiveNamespaces : List String := ["Main", "Wikipedia", "Portal"]

/-- Total edit count over the NamespaceDistrib map of rule 5. -/
def nsTotal (l : List (String × Int)) : Int := l.foldl (fun s e => s + e.2) 0

/-- Edits in sensitive namespaces; the Go inner loop adds the count when
the namespace name equals one of the (distinct) sensitive names. -/
def nsSensitive (l : List (String × Int)) : Int :=
  l.foldl (fun s e => if e.1 ∈ sensitiveNamespaces then s + e.2 else s) 0

/-- strings.TrimSpace(comment) == "": every character is whitespace. -/
def isBlankComment (s : String) : Bool := s.data.all Char.isWhitespace

/-- Go `for username, count := range profile.RevertedByUsers { ... break }`:
the first map entry that is not one of the two synthetic names, has
count > 5, and accounts for more than half of all revoked contributions.
The map is modelled as an association list in insertion order. -/
def firstConflictUser (p : UserProfile) : Option (String × Int) :=
  p.revertedByUsers.find? (fun e =>
    e.1 != "system_detected" && e.1 != "detected" &&
      decide (e.2 > 5) && decide (p.revokedCount > 0) &&
      decide ((e.2 : ℚ) / (p.revokedCount : ℚ) > 1/2))

/-- Number of revoked contributions classified vandalism_revert (rule 9). -/
def vandalismReverts (p : UserProfile) : Nat :=
  (p.revokedContribs.filter (fun r => r.revertType == "vandalism_revert")).length

/-- Rule-1 predicate: recent account with high activity. -/
def userRule1 (now : Int) (p : UserProfile) : Bool :=
  match p.registrationDate with
  | some reg => decide (daysSince now reg < 30 ∧ p.editCount > 100)
  | none => false

/-- Rule-2 predicate: profile.BlockInfo != nil && profile.BlockInfo.Blocked. -/
def userRule2 (p : UserProfile) : Bool :=
  match p.blockInfo with
  | some b => b.blocked
  | none => false

/-- Rule-3 predicate: top page holds more than half the total edit count. -/
def userRule3 (p : UserProfile) : Bool :=
  match p.topPages with
  | [] => false
  | t :: _ => decide (t.editCount > Int.tdiv p.editCount 2)

/-- Rule-4 predicate: no group besides "*" and "user", yet > 50 edits. -/
def userRule4 (p : UserProfile) : Bool :=
  !(p.groups.any (fun g => g != "*" && g != "user")) && decide (p.editCount > 50)

/-- Rule-5 predicate: > 90% of edits in sensitive namespaces. -/
def userRule5 (p : UserProfile) : Bool :=
  decide (nsTotal p.namespaceDistrib > 0) &&
    decide ((nsSensitive p.namespaceDistrib : ℚ) / (nsTotal p.namespaceDistrib : ℚ) > 9/10)

/-- Rule-6 predicate: > 70% of recent contribution comments empty. -/
def userRule6 (p : UserProfile) : Bool :=
  decide (0 < p.recentContribs.length) &&
    decide (((p.recentContribs.filter (fun c => isBlankComment c.comment)).length : ℚ) /
        (p.recentContribs.length : ℚ) > 7/10)

/-- Rule-11 predicate: account < 30 days old with > 10 revocations. -/
def userRule11 (now : Int) (p : UserProfile) : Bool :=
  match p.registrationDate with
  | some reg => decide (daysSince now reg < 30 ∧ p.revokedCount > 10)
  | none => false

/-- The six single-rule rows (blocks 1-6) of
UserAnalyzer.calculateSuspicionScore. -/
def userHeadRows (now : Int) (p : UserProfile) : List (Bool × Int × String) :=
  [ (userRule1 now p, 20, "RECENT_ACCOUNT_HIGH_ACTIVITY"),
    (userRule2 p, 30, "USER_BLOCKED"),
    (userRule3 p, 15, "SINGLE_PAGE_FOCUS"),
    (userRule4 p, 10, "NO_SPECIAL_GROUPS"),
    (userRule5 p, 15, "SENSITIVE_NAMESPACE_FOCUS"),
    (userRule6 p, 10, "FREQUENT_EMPTY_COMMENTS") ]

/-- Rows of the revoked-ratio band (block 7): an if / else-if band, so
the later rows carry the negations of the earlier branches. -/
def userRateRows (p : UserProfile) : List (Bool × Int × String) :=
  [ (decide (p.revokedRate > 1/2), 30, "VERY_HIGH_REVOKED_RATIO"),
    (!decide (p.revokedRate > 1/2) && decide (p.revokedRate > 3/10), 20,
      "HIGH_REVOKED_RATIO"),
    (!decide (p.revokedRate > 1/2) && !decide (p.revokedRate > 3/10) &&
        decide (p.revokedRate > 1/5), 10, "MODERATE_REVOKED_RATIO") ]

/-- Rows of the absolute revoked-count band (block 8). -/
def userCountRows (p : UserProfile) : List (Bool × Int × String) :=
  [ (decide (p.revokedCount > 50), 15, "MANY_REVOKED_CONTRIBUTIONS"),
    (!decide (p.revokedCount > 50) && decide (p.revokedCount > 20), 10,
      "SOME_REVOKED_CONTRIBUTIONS") ]

/-- Rows of the vandalism-revert band (block 9). -/
def userVandalRows (p : UserProfile) : List (Bool × Int × String) :=
  [ (decide (vandalismReverts p > 10), 25, "VANDALISM_PATTERN"),
    (!decide (vandalismReverts p > 10) && decide (vandalismReverts p > 5), 15,
      "SOME_VANDALISM_REVERTS") ]

/-- Row of the conflict-with-specific-user loop (block 10). -/
def userConflictRows (p : UserProfile) : List (Bool × Int × String) :=
  [ ((firstConflictUser p).isSome, 15,
      "CONFLICT_WITH_SPECIFIC_USER_" ++
        (match firstConflictUser p with | some e => e.1 | none => "")) ]

/-- Row of block 11. -/
def userTailRows (now : Int) (p : UserProfile) : List (Bool × Int × String) :=
  [ (userRule11 now p, 20, "NEW_ACCOUNT_MANY_REVERTS") ]

/-- The full rule table of UserAnalyzer.calculateSuspicionScore in source
order. -/
def userRules (now : Int) (p : UserProfile) : List (Bool × Int × String) :=
  userHeadRows now p ++ userRateRows p ++ userCountRows p ++ userVandalRows p ++
    userConflictRows p ++ userTailRows now p

/-- Block 7 of the user scorer: the revoked-ratio if / else-if band. -/
def userBandRate (p : UserProfile) (acc : Int × List String) : Int × List String :=
  if decide (p.revokedRate > 1/2) then (acc.1 + 30, acc.2 ++ ["VERY_HIGH_REVOKED_RATIO"])
  else if decide (p.revokedRate > 3/10) then (acc.1 + 20, acc.2 ++ ["HIGH_REVOKED_RATIO"])
  else if decide (p.revokedRate > 1/5) then
    (acc.1 + 10, acc.2 ++ ["MODERATE_REVOKED_RATIO"])
  else acc

/-- Block 8 of the user scorer: the absolute revoked-count band. -/
def userBandCount (p : UserProfile) (acc : Int × List String) : Int × List String :=
  if decide (p.revokedCount > 50) then (acc.1 + 15, acc.2 ++ ["MANY_REVOKED_CONTRIBUTIONS"])
  else if decide (p.revokedCount > 20) then
    (acc.1 + 10, acc.2 ++ ["SOME_REVOKED_CONTRIBUTIONS"])
  else acc

/-- Block 9 of the user scorer: the vandalism-revert band. -/
def userBandVandal (p : UserProfile) (acc : Int × List String) : Int × List String :=
  if decide (vandalismReverts p > 10) then (acc.1 + 25, acc.2 ++ ["VANDALISM_PATTERN"])
  else if decide (vandalismReverts p > 5) then
    (acc.1 + 15, acc.2 ++ ["SOME_VANDALISM_REVERTS"])
  else acc

/-- Block 10 of the user scorer: the loop over RevertedByUsers with its
break after the first qualifying user. -/
def userConflictStep (p : UserProfile) (acc : Int × List String) : Int × List String :=
  match firstConflictUser p with
  | some e => (acc.1 + 15, acc.2 ++ ["CONFLICT_WITH_SPECIFIC_USER_" ++ e.1])
  | none => acc

/-- The score/flags accumulation of UserAnalyzer.calculateSuspicionScore:
the eleven blocks in source order (blocks 7-10 are the named band/loop
steps above; each `applyRule` is one single-rule if-block). -/
def userScoreAcc (now : Int) (p : UserProfile) : Int × List String :=
  let acc : Int × List String := (0, [])
  let acc := applyRule acc (userRule1 now p, 20, "RECENT_ACCOUNT_HIGH_ACTIVITY")
  let acc := applyRule acc (userRule2 p, 30, "USER_BLOCKED")
  let acc := applyRule acc (userRule3 p, 15, "SINGLE_PAGE_FOCUS")
  let acc := applyRule acc (userRule4 p, 10, "NO_SPECIAL_GROUPS")
  let acc := applyRule acc (userRule5 p, 15, "SENSITIVE_NAMESPACE_FOCUS")
  let acc := applyRule acc (userRule6 p, 10, "FREQUENT_EMPTY_COMMENTS")
  let acc := userBandRate p acc
  let acc := userBandCount p acc
  let acc := userBandVandal p acc
  let acc := userConflictStep p acc
  let acc := applyRule acc (userRule11 now p, 20, "NEW_ACCOUNT_MANY_REVERTS")
  acc

/-- UserAnalyzer.calculateSuspicionScore: the accumulation followed by
the clamp to 100. -/
def userCalculateSuspicionScore (now : Int) (p : UserProfile) : Int × List String :=
  (clamp100 (userScoreAcc now p).1, (userScoreAcc now p).2)

/-! ## Edit-level scorer (ContributionAnalyzer.calculateSuspicionScore) -/

/-- models.RecentUserActivity (fields read by the edit scorer). -/
structure RecentUserActivity where
  editsLast24h : Int
  editsLast7d : Int
  editsLast30d : Int
deriving DecidableEq

/-- models.ContributionAuthor (fields read by the edit scorer). -/
structure ContributionAuthor where
  username : String
  userID : Int
  isAnonymous : Bool
  isRegistered : Bool
  editCount : Int
  registrationDate : Option Int
  isBlocked : Bool
  recentActivity : RecentUserActivity
  suspicionScore : Int
deriving DecidableEq

/-- models.TextChangeAnalysis (fields read by the edit scorer). -/
structure TextChangeAnalysis where
  charsAdded : Int
  charsRemoved : Int
deriving DecidableEq

/-- models.LanguageAnalysis (fields read by the edit scorer). -/
structure LanguageAnalysis where
  biasScore : ℚ
deriving DecidableEq

/-- models.ContributionContent (fields read by the edit scorer). -/
structure ContributionContent where
  textChanges : TextChangeAnalysis
  languageAnalysis : LanguageAnalysis
deriving DecidableEq

/-- models.ContributionProfile (fields read by the edit scorer). -/
structure ContributionProfile where
  revisionID : Int
  pageTitle : String
  comment : String
  isMinor : Bool
  isRevert : Bool
  author : ContributionAuthor
  contentAnalysis : ContributionContent
deriving DecidableEq

/-- The score the edit scorer takes over from the author analysis,
without any flag: `if Author.SuspicionScore > 0 { score += it / 2 }`. -/
def authorBase (p : ContributionProfile) : Int :=
  if p.author.suspicionScore > 0 then Int.tdiv p.author.suspicionScore 2 else 0

/-- NEW_ACCOUNT predicate: registration date present and < 7 days old. -/
def contribNewAccount (now : Int) (p : ContributionProfile) : Bool :=
  match p.author.registrationDate with
  | some reg => decide (daysSince now reg < 7)
  | none => false

/-- The flagged rule table of ContributionAnalyzer.calculateSuspicionScore
in source order (the author-score dilution carries no flag and is kept
separate in `authorBase`). -/
def contributionRules (now : Int) (p : ContributionProfile) : List (Bool × Int × String) :=
  [ (p.isRevert, 15, "REVERT_EDIT"),
    (decide (p.author.recentActivity.editsLast24h > 50), 20, "RAPID_EDITING"),
    (p.author.isAnonymous, 5, "ANONYMOUS_EDIT"),
    (contribNewAccount now p, 15, "NEW_ACCOUNT"),
    (decide (p.contentAnalysis.languageAnalysis.biasScore > 3/10), 10, "POTENTIAL_BIAS"),
    (decide (p.contentAnalysis.textChanges.charsAdded > 5000), 10, "LARGE_ADDITION"),
    (decide (p.contentAnalysis.textChanges.charsRemoved > 2000), 15, "LARGE_REMOVAL"),
    (p.author.isBlocked, 25, "BLOCKED_USER") ]

/-- The author-dilution block of the edit scorer:
`if Author.SuspicionScore > 0 { score += it / 2 }` — no flag appended. -/
def authorStep (p : ContributionProfile) (acc : Int × List String) : Int × List String :=
  if p.author.suspicionScore > 0 then (acc.1 + Int.tdiv p.author.suspicionScore 2, acc.2)
  else acc

/-- The score/flags accumulation of
ContributionAnalyzer.calculateSuspicionScore: the author-score dilution
(which appends no flag), then eight flagged if-blocks in source order. -/
def contribScoreAcc (now : Int) (p : ContributionProfile) : Int × List String :=
  let acc : Int × List String := (0, [])
  let acc := authorStep p acc
  let acc := applyRule acc (p.isRevert, 15, "REVERT_EDIT")
  let acc := applyRule acc
    (decide (p.author.recentActivity.editsLast24h > 50), 20, "RAPID_EDITING")
  let acc := applyRule acc (p.author.isAnonymous, 5, "ANONYMOUS_EDIT")
  let acc := applyRule acc (contribNewAccount now p, 15, "NEW_ACCOUNT")
  let acc := applyRule acc
    (decide (p.contentAnalysis.languageAnalysis.biasScore > 3/10), 10, "POTENTIAL_BIAS")
  let acc := applyRule acc
    (decide (p.contentAnalysis.textChanges.charsAdded > 5000), 10, "LARGE_ADDITION")
  let acc := applyRule acc
    (decide (p.contentAnalysis.textChanges.charsRemoved > 2000), 15, "LARGE_REMOVAL")
  let acc := applyRule acc (p.author.isBlocked, 25, "BLOCKED_USER")
  acc

/-- ContributionAnalyzer.calculateSuspicionScore: the accumulation
followed by the clamp to 100. -/
def contributionCalculateSuspicionScore (now : Int) (p : ContributionProfile) :
    Int × List String :=
  (clamp100 (contribScoreAcc now p).1, (contribScoreAcc now p).2)

/-! ## Revoked-contribution resolver (UserAnalyzer, internal/analyzer/user.go)

The Wikipedia client is modelled as a pure oracle
`fetchRevs : String → Int → List WikiRevision` (page title and limit);
`now` is the clock reading used for `time.Now()`/`time.Since`. -/

/-- models.WikiContribution (fields read by the resolver). -/
structure WikiContribution where
  revID : Int
  title : String
  ns : Int
  timestamp : Int
  comment : String
  sizeDiff : Int
  user : String
  tags : List String
deriving DecidableEq

/-- models.WikiRevision (fields read by the resolver). -/
structure WikiRevision where
  revID : Int
  parentID : Int
  user : String
  timestamp : Int
  comment : String
  size : Int
deriving DecidableEq

/-- UserAnalyzer.RevokedAnalysisConfig. -/
structure RevokedAnalysisConfig where
  maxPagesToAnalyze : Int
  maxRevisionsPerPage : Int
  enableDeepAnalysis : Bool
  recentDaysOnly : Int
deriving DecidableEq

/-- GetDefaultRevokedAnalysisConfig. -/
def defaultRevokedAnalysisConfig : RevokedAnalysisConfig :=
  { maxPagesToAnalyze := 10
    maxRevisionsPerPage := 50
    enableDeepAnalysis := false
    recentDaysOnly := 90 }

/-- UserAnalyzer.QuickRevertResult. -/
structure QuickRevertResult where
  hasReverts : Bool
  revertCount : Int
  lastRevertAge : Int
deriving DecidableEq

/-- Go strconv.Itoa, via a fuel-driven digit expansion (the fuel `n + 1`
always suffices since n / 10 shrinks). -/
def natDigitsAux : Nat → Nat → List Char
  | 0, _ => []
  | fuel + 1, n =>
      if n < 10 then [Char.ofNat (48 + n)]
      else natDigitsAux fuel (n / 10) ++ [Char.ofNat (48 + n % 10)]

/-- strconv.Itoa on the Int model. -/
def itoa : Int → String
  | Int.ofNat n => ⟨natDigitsAux (n + 1) n⟩
  | Int.negSucc m => ⟨'-' :: natDigitsAux (m + 2) (m + 1)⟩

/-- The revocation-tag table of UserAnalyzer.isRevokedByTags. -/
def revokedTagTable (lang : String) : List String :=
  ["mw-reverted", "mw-rollback", "reverted"] ++
    (if lang == "fr" then ["révoqué", "annulé"]
     else if lang == "de" then ["rückgängig"]
     else if lang == "es" then ["revertido"]
     else [])

/-- UserAnalyzer.isRevokedByTags. -/
def isRevokedByTags (lang : String) (tags : List String) : Bool :=
  tags.any (fun tag => (revokedTagTable lang).any (fun rt => hasSub (lowerData tag) rt.data))

/-- UserAnalyzer.classifyRevertTypeFromTags. -/
def classifyRevertTypeFromTags : List String → String
  | [] => "system_detected"
  | tag :: rest =>
      let t := lowerData tag
      if hasSub t "vandal".data then "vandalism_revert"
      else if hasSub t "rollback".data then "rollback"
      else if hasSub t "reverted".data || hasSub t "révoqué".data then "generic_revert"
      else classifyRevertTypeFromTags rest

/-- UserAnalyzer.classifyRevertType (per-language keyword switch). -/
def classifyRevertType (lang : String) (comment : String) : String :=
  let c := fun pat => containsLower comment pat
  if lang == "fr" then
    if c "vandalisme" || c "vandalisé" then "vandalism_revert"
    else if c "rollback" then "rollback"
    else if c "annulation" || c "annulé" then "undo"
    else if c "restauré" || c "restoration" then "restore"
    else if c "rv" || c "rvt" then "manual_revert"
    else "generic_revert"
  else if lang == "de" then
    if c "vandalismus" then "vandalism_revert"
    else if c "rollback" then "rollback"
    else if c "rückgängig" then "undo"
    else "generic_revert"
  else if lang == "es" then
    if c "vandalismo" then "vandalism_revert"
    else if c "rollback" then "rollback"
    else if c "deshacer" then "undo"
    else "generic_revert"
  else
    if c "vandalism" || c "vandal" then "vandalism_revert"
    else if c "rollback" then "rollback"
    else if c "undo" then "undo"
    else if c "restore" then "restore"
    else if c "rv" then "manual_revert"
    else "generic_revert"

/-- The keyword table of UserAnalyzer.detectRevert. -/
def userRevertKeywords (lang : String) : List String :=
  if lang == "fr" then
    ["révoqué", "révocation", "annulé", "annulation", "rv", "rvt",
     "restauré", "restoration", "rollback", "revert", "undo",
     "vandalisé", "vandalisme", "défait", "défaire"]
  else if lang == "de" then
    ["rückgängig", "revert", "undo", "rv", "zurückgesetzt",
     "vandalismus", "restore", "rollback"]
  else if lang == "es" then
    ["revertir", "deshacer", "rv", "vandalismo", "restaurar",
     "revert", "undo", "rollback"]
  else
    ["revert", "undo", "undid", "rv", "reverted",
     "restore", "restored", "rollback", "rolled back",
     "vandalism", "vandal"]

/-- UserAnalyzer.detectRevert. -/
def userDetectRevert (lang : String) (comment : String) : Bool :=
  (userRevertKeywords lang).any (fun k => containsLower comment k)

/-- The keyword table inlined in UserAnalyzer.detectUserRevert
(it differs from the detectRevert table). -/
def detectUserRevertKeywords (lang : String) : List String :=
  if lang == "fr" then
    ["révoqué", "révocation", "annulé", "annulation", "rv", "rvt",
     "restauré", "rollback", "revert", "undo", "vandalisé", "vandalisme"]
  else if lang == "de" then
    ["rückgängig", "revert", "undo", "rv", "zurückgesetzt",
     "vandalismus", "restore", "rollback"]
  else if lang == "es" then
    ["revertir", "deshacer", "rv", "vandalismo", "restaurar",
     "revert", "undo", "rollback"]
  else
    ["revert", "undo", "undid", "rv", "reverted",
     "restore", "restored", "rollback", "rolled back"]

/-- Method 2 of detectUserRevert: the user revision strictly before the
revert whose distance to it is smallest, starting from the one-year bound
(revisions a year or more older are not considered).  The Go map
iteration is modelled as list order. -/
def closestUserRevBefore (revertTime : Int) (userRevisions : List WikiRevision) :
    Option WikiRevision :=
  (userRevisions.foldl
    (fun best ur =>
      if ur.timestamp < revertTime ∧ revertTime - ur.timestamp < best.1 then
        (revertTime - ur.timestamp, some ur)
      else best)
    ((365 * 86400 : Int), none)).2

/-- UserAnalyzer.detectUserRevert: keyword gate, then the four detection
methods in order.  Method 2 returns its (possibly absent) result without
falling through to methods 3 and 4, exactly as the Go `return closestRev`
does. -/
def detectUserRevert (lang : String) (revision : WikiRevision)
    (userRevisions : List WikiRevision) : Option WikiRevision :=
  let comment := lowerData revision.comment
  let isRevert := (detectUserRevertKeywords lang).any (fun k => hasSub comment k.data)
  if !isRevert then none
  else
    match userRevisions.find? (fun ur => hasSub comment (itoa ur.revID).data) with
    | some ur => some ur
    | none =>
        match userRevisions with
        | [] => none
        | firstUserRev :: _ =>
            if hasSub comment (lowerData firstUserRev.user) then
              closestUserRevBefore revision.timestamp userRevisions
            else
              match (if revision.parentID > 0 then
                      userRevisions.find? (fun ur => ur.revID == revision.parentID)
                    else none) with
              | some ur => some ur
              | none =>
                  userRevisions.find? (fun ur =>
                    ur.timestamp < revision.timestamp ∧
                      revision.timestamp - ur.timestamp ≤ 86400)

/-- UserAnalyzer.findUserReverts. -/
def findUserReverts (lang : String) (username : String)
    (pageHistory : List WikiRevision) (pageTitle : String) : List RevokedContribution :=
  let userRevisions := pageHistory.filter (fun r => r.user == username)
  pageHistory.filterMap (fun rev =>
    if rev.user == username then none
    else
      match detectUserRevert lang rev userRevisions with
      | some revertInfo =>
          some
            { originalContrib :=
                { revID := revertInfo.revID
                  pageTitle := pageTitle
                  ns := 0
                  timestamp := revertInfo.timestamp
                  comment := revertInfo.comment
                  sizeDiff := revertInfo.size }
              revokedBy := rev.user
              revokedAt := rev.timestamp
              revertComment := rev.comment
              pageTitle := pageTitle
              revertType := classifyRevertType lang rev.comment }
      | none => none)

/-- UserAnalyzer.deepRevertAnalysis. -/
def deepRevertAnalysis (lang : String) (fetchRevs : String → Int → List WikiRevision)
    (username pageTitle : String) (maxRevisions : Int) : List RevokedContribution :=
  findUserReverts lang username (fetchRevs pageTitle maxRevisions) pageTitle

/-- UserAnalyzer.quickRevertCheck. -/
def quickRevertCheck (lang : String) (now : Int)
    (fetchRevs : String → Int → List WikiRevision) (username pageTitle : String) :
    QuickRevertResult :=
  let revisions := fetchRevs pageTitle 20
  let acc := revisions.foldl
    (fun (acc : Int × Option Int) rev =>
      if hasSub (lowerData rev.comment) (lowerData username) ∧ userDetectRevert lang rev.comment then
        (acc.1 + 1,
          match acc.2 with
          | none => some rev.timestamp
          | some t => if rev.timestamp > t then some rev.timestamp else some t)
      else acc)
    (0, none)
  { hasReverts := acc.1 > 0
    revertCount := acc.1
    lastRevertAge :=
      match acc.2 with
      | some t => Int.tdiv (now - t) 86400
      | none => 0 }

/-- The tag record built by the first pass of detectDirectRevocations. -/
def tagRecord (c : WikiContribution) : RevokedContribution :=
  { originalContrib :=
      { revID := c.revID
        pageTitle := c.title
        ns := c.ns
        timestamp := c.timestamp
        comment := c.comment
        sizeDiff := c.sizeDiff }
    revokedBy := "system_detected"
    revokedAt := c.timestamp
    revertComment := "Detected from revision tags"
    pageTitle := c.title
    revertType := classifyRevertTypeFromTags c.tags }

/-- The tag-based first pass of detectDirectRevocations. -/
def tagPass (lang : String) (contributions : List WikiContribution) :
    List RevokedContribution :=
  contributions.filterMap (fun c =>
    if 0 < c.tags.length ∧ isRevokedByTags lang c.tags then some (tagRecord c) else none)

/-- The temporal/size test of detectDirectRevocations' second pass. -/
def temporalCandidate (contrib next : WikiContribution) : Bool :=
  contrib.title == next.title &&
    decide (next.timestamp - contrib.timestamp ≤ 86400) &&
    contrib.user != next.user &&
    ((contrib.sizeDiff > 0 && next.sizeDiff < 0) ||
      (contrib.sizeDiff < 0 && next.sizeDiff > 0)) &&
    (decide (contrib.sizeDiff + next.sizeDiff < 100) &&
      decide (contrib.sizeDiff + next.sizeDiff > -100))

/-- The temporal record built by the second pass. -/
def temporalRecord (lang : String) (contrib next : WikiContribution) :
    RevokedContribution :=
  { originalContrib :=
      { revID := contrib.revID
        pageTitle := contrib.title
        ns := contrib.ns
        timestamp := contrib.timestamp
        comment := contrib.comment
        sizeDiff := contrib.sizeDiff }
    revokedBy := next.user
    revokedAt := next.timestamp
    revertComment := next.comment
    pageTitle := contrib.title
    revertType := classifyRevertType lang next.comment }

/-- The temporal second pass of detectDirectRevocations: each contribution
(paired with its list successor) is skipped when its revision id is
already among the accumulated revocations, otherwise added when the
temporal/size test fires.  The last contribution has no successor. -/
def temporalPass (lang : String) :
    List WikiContribution → List RevokedContribution → List RevokedContribution
  | [], acc => acc
  | [_], acc => acc
  | c :: next :: rest, acc =>
      if acc.any (fun ex => ex.originalContrib.revID == c.revID) then
        temporalPass lang (next :: rest) acc
      else if temporalCandidate c next then
        temporalPass lang (next :: rest) (acc ++ [temporalRecord lang c next])
      else temporalPass lang (next :: rest) acc

/-- UserAnalyzer.detectDirectRevocations: tag pass, then temporal pass
de-duplicating against the already-detected records. -/
def detectDirectRevocations (lang : String) (contributions : List WikiContribution) :
    List RevokedContribution :=
  temporalPass lang contributions (tagPass lang contributions)

/-- The light-analysis record appended when deep analysis is disabled
(the OriginalContrib stays the Go zero value: revision id 0). -/
def basicRevertRecord (now : Int) (title : String) (light : QuickRevertResult) :
    RevokedContribution :=
  { originalContrib :=
      { revID := 0, pageTitle := "", ns := 0, timestamp := 0, comment := "", sizeDiff := 0 }
    revokedBy := "detected"
    revokedAt := now - light.lastRevertAge * 86400
    revertComment := "Approximately " ++ itoa light.revertCount ++ " reverts detected"
    pageTitle := title
    revertType := "detected_light" }

/-- The per-page probing loop of analyzeRevokedContributions, carrying
the pages-seen set and the pages-analyzed counter. -/
def revokedPageLoop (lang : String) (now : Int)
    (fetchRevs : String → Int → List WikiRevision) (username : String)
    (config : RevokedAnalysisConfig) :
    List WikiContribution → List String → Int → List RevokedContribution →
      List RevokedContribution
  | [], _, _, acc => acc
  | c :: rest, seen, analyzed, acc =>
      if analyzed ≥ config.maxPagesToAnalyze then acc
      else if seen.contains c.title then revokedPageLoop lang now fetchRevs username config rest seen analyzed acc
      else
        let light := quickRevertCheck lang now fetchRevs username c.title
        revokedPageLoop lang now fetchRevs username config rest (seen ++ [c.title]) (analyzed + 1)
          (if light.hasReverts then
            (if config.enableDeepAnalysis then
              acc ++ deepRevertAnalysis lang fetchRevs username c.title config.maxRevisionsPerPage
            else acc ++ [basicRevertRecord now c.title light])
          else acc)

/-- UserAnalyzer.analyzeRevokedContributions: direct detections first,
then the (optionally date-filtered) page-probing loop appends the
light or deep page records with no de-duplication against the direct
detections. -/
def analyzeRevokedContributions (lang : String) (now : Int)
    (fetchRevs : String → Int → List WikiRevision) (username : String)
    (contributions : List WikiContribution) (config : RevokedAnalysisConfig) :
    List RevokedContribution :=
  let direct := detectDirectRevocations lang contributions
  let sortedContribs :=
    if config.recentDaysOnly > 0 then
      contributions.filter (fun c => c.timestamp > now - config.recentDaysOnly * 86400)
    else contributions
  revokedPageLoop lang now fetchRevs username config sortedContribs [] 0 direct

/-! ## Cross-page analysis run (CrossPageAnalyzer.AnalyzePages)

GetPageProfile is modelled as an oracle `String → Option PageProfile`;
a `none` result is the Go error case, which AnalyzePages logs and skips. -/

/-- Keys of an association list. -/
def assocKeys {β : Type} (l : List (String × β)) : List String := l.map (fun e => e.1)

/-- Go map assignment m[k] = v on an association list. -/
def assocSet {β : Type} (l : List (String × β)) (k : String) (v : β) :
    List (String × β) :=
  if l.any (fun e => e.1 == k) then
    l.map (fun e => if e.1 == k then (k, v) else e)
  else l ++ [(k, v)]

/-- The update branch of extractContributors for an existing contributor. -/
def updateCommon (pageName : String) (tc : TopContributor) (e : CommonContributor) :
    CommonContributor :=
  { e with
    pagesEdited := e.pagesEdited ++ [pageName]
    totalEdits := e.totalEdits + tc.editCount
    editsByPage := assocSet e.editsByPage pageName tc.editCount
    firstEdit := if tc.firstEdit < e.firstEdit then tc.firstEdit else e.firstEdit
    lastEdit := if tc.lastEdit > e.lastEdit then tc.lastEdit else e.lastEdit }

/-- The creation branch of extractContributors for a new contributor. -/
def newCommon (pageName : String) (tc : TopContributor) : CommonContributor :=
  { username := tc.username
    userID := tc.userID
    pagesEdited := [pageName]
    totalEdits := tc.editCount
    editsByPage := [(pageName, tc.editCount)]
    firstEdit := tc.firstEdit
    lastEdit := tc.lastEdit
    suspicionScore := tc.suspicionScore
    suspicionFlags := tc.suspicionFlags
    mutualSupportEvents := []
    isAnonymous := tc.isAnonymous }

/-- One step of extractContributors' loop over a page's contributors. -/
def contribUpsert (pageName : String) (acc : List (String × CommonContributor))
    (tc : TopContributor) : List (String × CommonContributor) :=
  if acc.any (fun e => e.1 == tc.username) then
    acc.map (fun e => if e.1 == tc.username then (e.1, updateCommon pageName tc e.2) else e)
  else acc ++ [(tc.username, newCommon pageName tc)]

/-- CrossPageAnalyzer.extractContributors. -/
def extractContributors (profile : PageProfile) (pageName : String)
    (acc : List (String × CommonContributor)) : List (String × CommonContributor) :=
  profile.contributors.foldl (contribUpsert pageName) acc

/-- CrossPageAnalyzer.extractRevisions. -/
def extractRevisions (profile : PageProfile) (pageName : String) : List EditEvent :=
  profile.recentRevisions.map (fun r =>
    { timestamp := r.timestamp
      username := r.username
      pageTitle := pageName
      revisionID := r.revID
      sizeDiff := r.sizeDiff
      comment := r.comment
      isRevert := r.isRevert })

/-- Descending total-edits order of identifyCommonContributors. -/
def totalEditsOrd (a b : CommonContributor) : Prop := b.totalEdits ≤ a.totalEdits

instance : DecidableRel totalEditsOrd := fun a b => by
  unfold totalEditsOrd; infer_instance

instance : IsTotal CommonContributor totalEditsOrd :=
  ⟨fun a b => (le_total b.totalEdits a.totalEdits).imp id id⟩

instance : IsTrans CommonContributor totalEditsOrd :=
  ⟨fun _ _ _ hab hbc => le_trans hbc hab⟩

/-- CrossPageAnalyzer.identifyCommonContributors. -/
def identifyCommonContributors (minCommonEdits : Int)
    (allContributors : List (String × CommonContributor)) : List CommonContributor :=
  List.insertionSort totalEditsOrd
    ((allContributors.map (fun e => e.2)).filter (fun c =>
      decide (c.pagesEdited.length > 1) || decide (c.totalEdits ≥ minCommonEdits)))

/-- Placeholder pattern types: structurally present in the data model,
produced only by stub detectors returning empty lists. -/
abbrev TagTeamPattern := Unit

abbrev CoordinatedRevert := Unit

abbrev SupportNetwork := Unit

abbrev SockpuppetNetwork := Unit

/-- models.CoordinatedPatterns. -/
structure CoordinatedPatterns where
  mutualSupportPairs : List MutualSupportPair
  tagTeamEditing : List TagTeamPattern
  coordinatedReversions : List CoordinatedRevert
  supportNetworks : List SupportNetwork
  coordinationScore : ℚ
deriving DecidableEq

/-- Stub: detectTagTeamEditing returns an empty list in the source. -/
def detectTagTeamEditing (_contributors : List CommonContributor)
    (_revisions : List EditEvent) : List TagTeamPattern := []

/-- Stub: detectCoordinatedReversions returns an empty list in the source. -/
def detectCoordinatedReversions (_revisions : List EditEvent) : List CoordinatedRevert := []

/-- Stub: buildSupportNetworks returns an empty list in the source. -/
def buildSupportNetworks (_pairs : List MutualSupportPair)
    (_contributors : List CommonContributor) : List SupportNetwork := []

/-- CrossPageAnalyzer.calculateCoordinationScore (float arithmetic as ℚ). -/
def calculateCoordinationScore (pairs : List MutualSupportPair)
    (tagTeam : List TagTeamPattern) (reversions : List CoordinatedRevert)
    (networks : List SupportNetwork) : ℚ :=
  let score : ℚ :=
    (pairs.length : ℚ) * 10 + (tagTeam.length : ℚ) * 15 +
      (reversions.length : ℚ) * 20 + (networks.length : ℚ) * 25
  if score > 100 then 100 else score

/-- CrossPageAnalyzer.analyzeCoordinationPatterns. -/
def analyzeCoordinationPatterns (maxReactionTime : Int)
    (contributors : List CommonContributor) (revisions : List EditEvent) :
    CoordinatedPatterns :=
  let mutualSupportPairs := detectMutualSupport maxReactionTime contributors revisions
  let tagTeamPatterns := detectTagTeamEditing contributors revisions
  let coordinatedReverts := detectCoordinatedReversions revisions
  let supportNetworks := buildSupportNetworks mutualSupportPairs contributors
  { mutualSupportPairs := mutualSupportPairs
    tagTeamEditing := tagTeamPatterns
    coordinatedReversions := coordinatedReverts
    supportNetworks := supportNetworks
    coordinationScore :=
      calculateCoordinationScore mutualSupportPairs tagTeamPatterns coordinatedReverts
        supportNetworks }

/-- models.TemporalPatterns, as produced by the stub analyzeTemporalPatterns. -/
structure TemporalPatterns where
  temporalCorrelation : ℚ
deriving DecidableEq

/-- Stub: analyzeTemporalPatterns returns empty lists and a zero
correlation in the source. -/
def analyzeTemporalPatterns (_revisions : List EditEvent)
    (_contributors : List CommonContributor) : TemporalPatterns :=
  { temporalCorrelation := 0 }

/-- Stub: detectSockpuppetNetworks returns an empty list in the source. -/
def detectSockpuppetNetworks (_contributors : List CommonContributor)
    (_revisions : List EditEvent) : List SockpuppetNetwork := []

/-- CrossPageAnalyzer.calculateCrossPageSuspicion. -/
def calculateCrossPageSuspicion (coordinated : CoordinatedPatterns)
    (_temporal : TemporalPatterns) (sockpuppets : List SockpuppetNetwork)
    (contributors : List CommonContributor) : Int × List String :=
  let acc : Int × List String := (0, [])
  let acc := applyRule acc
    (decide (0 < coordinated.mutualSupportPairs.length), 25, "MUTUAL_SUPPORT_DETECTED")
  let acc := applyRule acc
    (decide (coordinated.coordinationScore > 50), 20, "HIGH_COORDINATION_SCORE")
  let acc := applyRule acc
    (decide (0 < sockpuppets.length), 30, "SOCKPUPPET_NETWORK_DETECTED")
  let multiPageContributors :=
    (contributors.filter (fun c => c.pagesEdited.length > 1)).length
  let acc := applyRule acc
    (decide (multiPageContributors > contributors.length / 2), 15,
      "HIGH_CONTRIBUTOR_OVERLAP")
  (clamp100 acc.1, acc.2)

/-- models.CrossPageAnalysis (fields read by the claims). -/
structure CrossPageAnalysis where
  pages : List String
  totalPages : Int
  totalContributors : Int
  commonContributors : List CommonContributor
  coordinatedPatterns : CoordinatedPatterns
  temporalPatterns : TemporalPatterns
  sockpuppetNetworks : List SockpuppetNetwork
  suspicionScore : Int
  suspicionFlags : List String
  pageProfiles : List (String × PageProfile)

/-- One iteration of AnalyzePages' page loop: a failed fetch is skipped
(the Go code logs and continues), a successful one is stored and its
contributors and revisions merged into the accumulators. -/
def analyzePageStep (fetch : String → Option PageProfile)
    (st : List (String × PageProfile) × List (String × CommonContributor) × List EditEvent)
    (name : String) :
    List (String × PageProfile) × List (String × CommonContributor) × List EditEvent :=
  match fetch name with
  | none => st
  | some profile =>
      (assocSet st.1 name profile,
        extractContributors profile name st.2.1,
        st.2.2 ++ extractRevisions profile name)

/-- CrossPageAnalyzer.AnalyzePages.  The Go function returns
(analysis, nil) on every path after the loop; the Except models the
(value, error) pair of its signature. -/
def analyzePages (fetch : String → Option PageProfile)
    (options : CrossPageAnalysisOptions) (pageNames : List String) :
    Except String CrossPageAnalysis :=
  let st := pageNames.foldl (analyzePageStep fetch) ([], [], [])
  let pageProfiles := st.1
  let allContributors := st.2.1
  let allRevisions := st.2.2
  let commonContributors := identifyCommonContributors options.minCommonEdits allContributors
  let coordinatedPatterns :=
    analyzeCoordinationPatterns options.maxReactionTime commonContributors allRevisions
  let temporalPatterns := analyzeTemporalPatterns allRevisions commonContributors
  let sockpuppetNetworks := detectSockpuppetNetworks commonContributors allRevisions
  let sf :=
    calculateCrossPageSuspicion coordinatedPatterns temporalPatterns sockpuppetNetworks
      commonContributors
  Except.ok
    { pages := pageNames
      totalPages := (pageProfiles.length : Int)
      totalContributors := (allContributors.length : Int)
      commonContributors := commonContributors
      coordinatedPatterns := coordinatedPatterns
      temporalPatterns := temporalPatterns
      sockpuppetNetworks := sockpuppetNetworks
      suspicionScore := sf.1
      suspicionFlags := sf.2
      pageProfiles := pageProfiles }

/-- The requested page names whose fetch succeeds (characterization
helper for AnalyzePages). -/
def okNames (fetch : String → Option PageProfile) (pageNames : List String) :
    List String :=
  pageNames.filter (fun n => (fetch n).isSome)

/-- The contributor usernames of all successfully fetched page profiles,
in processing order (characterization helper for AnalyzePages). -/
def successUsernames (fetch : String → Option PageProfile) (pageNames : List String) :
    List String :=
  (pageNames.filterMap fetch).flatMap (fun prof =>
    prof.contributors.map (fun tc => tc.username))

/-! ## Concrete inputs used by counterexamples and witnesses -/

/-- An edit profile whose author carries suspicion score 10 and for which
no flagged rule fires. -/
def exEditProfile : ContributionProfile :=
  { revisionID := 1
    pageTitle := "P"
    comment := ""
    isMinor := false
    isRevert := false
    author :=
      { username := "u"
        userID := 1
        isAnonymous := false
        isRegistered := true
        editCount := 10
        registrationDate := none
        isBlocked := false
        recentActivity := { editsLast24h := 0, editsLast7d := 0, editsLast30d := 0 }
        suspicionScore := 10 }
    contentAnalysis :=
      { textChanges := { charsAdded := 0, charsRemoved := 0 }
        languageAnalysis := { biasScore := 0 } } }

/-- A user profile with exactly 31 of 100 recent contributions revoked. -/
def exUserProfileC7 : UserProfile :=
  { username := "u"
    userID := 1
    editCount := 100
    groups := []
    registrationDate := none
    blockInfo := none
    topPages := []
    namespaceDistrib := []
    recentContribs := []
    revokedContribs := []
    revokedCount := 31
    revokedRate := 31/100
    revertedByUsers := [] }

/-- A revert by a third user, answered on the same page. -/
def exRevertEvent : EditEvent :=
  { timestamp := 0
    username := "carol"
    pageTitle := "P"
    revisionID := 1
    sizeDiff := -200
    comment := "blanked section"
    isRevert := true }

/-- The answering edit by userA five minutes later. -/
def exDefenseEvent : EditEvent :=
  { timestamp := 300
    username := "alice"
    pageTitle := "P"
    revisionID := 2
    sizeDiff := 100
    comment := "bring back content"
    isRevert := false }

def exSupportRevs : List EditEvent := [exRevertEvent, exDefenseEvent]

/-- The support event findSupportEvents produces for the pair
(alice, bob) on exSupportRevs. -/
def exSupportEvent : MutualSupportEvent :=
  { timestamp := 300
    pageTitle := "P"
    supportType := "revert_defense"
    reactionTime := 5
    attackerUser := "carol"
    defenderUser := "alice"
    supportedUser := "bob"
    revisionID := 2
    comment := "bring back content" }

/-- Index-0 event of the C3 counterexample: a qualifying trigger. -/
def exFarTrigger : EditEvent :=
  { timestamp := 0
    username := "carol"
    pageTitle := "P"
    revisionID := 1
    sizeDiff := -200
    comment := "remove paragraph"
    isRevert := true }

/-- One of nine intervening events on another page by the same actor. -/
def exFarFiller (k : Int) : EditEvent :=
  { timestamp := k
    username := "carol"
    pageTitle := "Q"
    revisionID := 100 + k
    sizeDiff := 0
    comment := "tweak"
    isRevert := false }

/-- Index-10 event: a qualifying supporting edit by userA, nine minutes
after the trigger, but separated from it by ten positions. -/
def exFarDefense : EditEvent :=
  { timestamp := 540
    username := "alice"
    pageTitle := "P"
    revisionID := 200
    sizeDiff := 100
    comment := "rv"
    isRevert := true }

/-- Eleven time-sorted events: trigger, nine fillers, qualifying defense
at relative position 10. -/
def exFarRevs : List EditEvent :=
  [exFarTrigger, exFarFiller 1, exFarFiller 2, exFarFiller 3, exFarFiller 4,
    exFarFiller 5, exFarFiller 6, exFarFiller 7, exFarFiller 8, exFarFiller 9,
    exFarDefense]

/-- A non-anonymous common contributor named alice. -/
def exContribA : CommonContributor :=
  { username := "alice", userID := 1, pagesEdited := ["P"], totalEdits := 5
    editsByPage := [("P", 5)], firstEdit := 0, lastEdit := 10, suspicionScore := 0
    suspicionFlags := [], mutualSupportEvents := [], isAnonymous := false }

/-- A non-anonymous common contributor named bob. -/
def exContribB : CommonContributor :=
  { username := "bob", userID := 2, pagesEdited := ["P"], totalEdits := 4
    editsByPage := [("P", 4)], firstEdit := 0, lastEdit := 10, suspicionScore := 0
    suspicionFlags := [], mutualSupportEvents := [], isAnonymous := false }

def exContributors : List CommonContributor := [exContribA, exContribB]

/-- The pair record detectMutualSupport produces on exSupportRevs. -/
def exMutualPair : MutualSupportPair :=
  { userA := "alice", userB := "bob", supportEvents := [exSupportEvent]
    mutualSupportRate := 1, averageReactionTime := 5, reciprocityScore := 0
    exclusivityRate := 1, pagesInvolved := ["P"], suspicionLevel := "VERY_HIGH" }

/-- Shorthand for a concrete revision. -/
def exWar (t : Int) (u : String) : WikiRev := { timestamp := t, user := u }

/-- Five revisions by three distinct actors within one hour. -/
def exWarRevs1 : List WikiRev :=
  [exWar 0 "anna", exWar 600 "ben", exWar 1200 "cleo", exWar 1800 "anna",
    exWar 3600 "ben"]

/-- The same five revisions spread across ten days. -/
def exWarRevs2 : List WikiRev :=
  [exWar 0 "anna", exWar 172800 "ben", exWar 345600 "cleo", exWar 518400 "anna",
    exWar 864000 "ben"]

/-- A contribution by alice that carries the mw-reverted tag. -/
def exC8Contribution : WikiContribution :=
  { revID := 123, title := "P", ns := 0, timestamp := 1000, comment := "add stuff"
    sizeDiff := 10, user := "alice", tags := ["mw-reverted"] }

/-- Page history for page P: alice's revision 123 and bob's revert of it. -/
def exC8History : List WikiRevision :=
  [ { revID := 123, parentID := 100, user := "alice", timestamp := 1000
      comment := "add stuff", size := 50 },
    { revID := 124, parentID := 123, user := "bob", timestamp := 2000
      comment := "undo edit by alice", size := 40 } ]

/-- A client oracle returning the same page history for every request. -/
def exC8Fetch : String → Int → List WikiRevision := fun _ _ => exC8History

/-- A resolver configuration with deep analysis enabled and no
recent-days filtering. -/
def exC8Config : RevokedAnalysisConfig :=
  { maxPagesToAnalyze := 10, maxRevisionsPerPage := 50, enableDeepAnalysis := true
    recentDaysOnly := 0 }

/-! ## Helper lemmas: generic rule evaluation -/

theorem foldl_applyRule :
    ∀ (rs : List (Bool × Int × String)) (acc : Int × List String),
      List.foldl applyRule acc rs = (acc.1 + rulesScore rs, acc.2 ++ rulesFlags rs)
  | [], acc => by simp [rulesScore, rulesFlags]
  | (b, w, n) :: rs, acc => by
      cases b <;>
        simp [applyRule, rulesScore, rulesFlags, foldl_applyRule rs, add_assoc,
          List.append_assoc]

theorem rulesScore_nonneg (rs : List (Bool × Int × String))
    (h : ∀ r ∈ rs, 0 ≤ r.2.1) : 0 ≤ rulesScore rs := by
  induction rs with
  | nil => simp [rulesScore]
  | cons r rs ih =>
      obtain ⟨b, w, n⟩ := r
      have hw : (0 : Int) ≤ w := h (b, w, n) (List.mem_cons_self _ _)
      have hrs : 0 ≤ rulesScore rs := ih (fun r hr => h r (List.mem_cons_of_mem _ hr))
      cases b <;> simp [rulesScore] <;> omega

theorem mem_rulesFlags (rs : List (Bool × Int × String)) (x : String) :
    x ∈ rulesFlags rs ↔ ∃ r ∈ rs, r.1 = true ∧ r.2.2 = x := by
  induction rs with
  | nil => simp [rulesFlags]
  | cons r rs ih =>
      obtain ⟨b, w, n⟩ := r
      cases b <;> simp [rulesFlags, ih] <;> tauto

theorem clamp100_le (s : Int) : clamp100 s ≤ 100 := by
  unfold clamp100; split <;> omega

theorem clamp100_nonneg (s : Int) (h : 0 ≤ s) : 0 ≤ clamp100 s := by
  unfold clamp100; split <;> omega

theorem authorBase_nonneg (p : ContributionProfile) : 0 ≤ authorBase p := by
  unfold authorBase
  split
  · exact Int.tdiv_nonneg (by omega) (by omega)
  · omega

/-! ## Helper lemmas: the three scorers as generic rule evaluations -/

theorem rulesScore_append (l1 l2 : List (Bool × Int × String)) :
    rulesScore (l1 ++ l2) = rulesScore l1 + rulesScore l2 := by
  induction l1 with
  | nil => simp [rulesScore]
  | cons r rs ih => obtain ⟨b, w, n⟩ := r; simp [rulesScore, ih]; ring

theorem rulesFlags_append (l1 l2 : List (Bool × Int × String)) :
    rulesFlags (l1 ++ l2) = rulesFlags l1 ++ rulesFlags l2 := by
  induction l1 with
  | nil => simp [rulesFlags]
  | cons r rs ih => obtain ⟨b, w, n⟩ := r; simp [rulesFlags, ih]

theorem applyRule_spec (acc : Int × List String) (r : Bool × Int × String) :
    applyRule acc r = (acc.1 + rulesScore [r], acc.2 ++ rulesFlags [r]) := by
  obtain ⟨b, w, n⟩ := r
  cases b <;> simp [applyRule, rulesScore, rulesFlags]

theorem userBandRate_spec (p : UserProfile) (acc : Int × List String) :
    userBandRate p acc =
      (acc.1 + rulesScore (userRateRows p), acc.2 ++ rulesFlags (userRateRows p)) := by
  unfold userBandRate userRateRows
  cases h1 : decide (p.revokedRate > 1/2) <;>
    cases h2 : decide (p.revokedRate > 3/10) <;>
    cases h3 : decide (p.revokedRate > 1/5) <;>
    simp [rulesScore, rulesFlags, h1, h2, h3]

theorem userBandCount_spec (p : UserProfile) (acc : Int × List String) :
    userBandCount p acc =
      (acc.1 + rulesScore (userCountRows p), acc.2 ++ rulesFlags (userCountRows p)) := by
  unfold userBandCount userCountRows
  cases h1 : decide (p.revokedCount > 50) <;>
    cases h2 : decide (p.revokedCount > 20) <;>
    simp [rulesScore, rulesFlags, h1, h2]

theorem userBandVandal_spec (p : UserProfile) (acc : Int × List String) :
    userBandVandal p acc =
      (acc.1 + rulesScore (userVandalRows p), acc.2 ++ rulesFlags (userVandalRows p)) := by
  unfold userBandVandal userVandalRows
  cases h1 : decide (vandalismReverts p > 10) <;>
    cases h2 : decide (vandalismReverts p > 5) <;>
    simp [rulesScore, rulesFlags, h1, h2]

theorem userConflictStep_spec (p : UserProfile) (acc : Int × List String) :
    userConflictStep p acc =
      (acc.1 + rulesScore (userConflictRows p), acc.2 ++ rulesFlags (userConflictRows p)) := by
  unfold userConflictStep userConflictRows
  cases h : firstConflictUser p <;> simp [rulesScore, rulesFlags, h]

theorem authorStep_spec (p : ContributionProfile) (acc : Int × List String) :
    authorStep p acc = (acc.1 + authorBase p, acc.2) := by
  unfold authorStep authorBase
  by_cases hb : p.author.suspicionScore > 0 <;> simp [hb]

theorem pageScoreAcc_eq (now : Int) (p : PageProfile) :
    pageScoreAcc now p = (rulesScore (pageRules now p), rulesFlags (pageRules now p)) := by
  simp only [pageScoreAcc, applyRule_spec]
  simp [pageRules, rulesScore, rulesFlags, add_assoc, List.append_assoc]

theorem userScoreAcc_eq (now : Int) (p : UserProfile) :
    userScoreAcc now p = (rulesScore (userRules now p), rulesFlags (userRules now p)) := by
  simp only [userScoreAcc, applyRule_spec, userBandRate_spec, userBandCount_spec,
    userBandVandal_spec, userConflictStep_spec]
  simp [userRules, userHeadRows, userTailRows, rulesScore_append, rulesFlags_append,
    rulesScore, rulesFlags, add_assoc, List.append_assoc]

theorem contribScoreAcc_eq (now : Int) (p : ContributionProfile) :
    contribScoreAcc now p =
      (authorBase p + rulesScore (contributionRules now p),
        rulesFlags (contributionRules now p)) := by
  simp only [contribScoreAcc, authorStep_spec, applyRule_spec]
  simp [contributionRules, rulesScore, rulesFlags, add_assoc, List.append_assoc]

theorem pageRules_weights_nonneg (now : Int) (p : PageProfile) :
    ∀ r ∈ pageRules now p, (0 : Int) ≤ r.2.1 := by
  intro r hr
  simp [pageRules] at hr
  rcases hr with rfl | rfl | rfl | rfl | rfl | rfl | rfl <;> norm_num

theorem userRules_weights_nonneg (now : Int) (p : UserProfile) :
    ∀ r ∈ userRules now p, (0 : Int) ≤ r.2.1 := by
  intro r hr
  simp [userRules, userHeadRows, userRateRows, userCountRows, userVandalRows,
    userConflictRows, userTailRows] at hr
  rcases hr with rfl | rfl | rfl | rfl | rfl | rfl | rfl | rfl | rfl | rfl | rfl | rfl |
    rfl | rfl | rfl <;> norm_num

theorem contributionRules_weights_nonneg (now : Int) (p : ContributionProfile) :
    ∀ r ∈ contributionRules now p, (0 : Int) ≤ r.2.1 := by
  intro r hr
  simp [contributionRules] at hr
  rcases hr with rfl | rfl | rfl | rfl | rfl | rfl | rfl | rfl <;> norm_num

theorem userFlags_eq (now : Int) (p : UserProfile) :
    (userCalculateSuspicionScore now p).2 = rulesFlags (userRules now p) := by
  simp [userCalculateSuspicionScore, userScoreAcc_eq]

/-- The conflict flag can never collide with a fixed short flag name:
its constant part alone is 28 characters long. -/
theorem conflict_flag_ne (u : String) (s : String) (h : s.length < 28) :
    ("CONFLICT_WITH_SPECIFIC_USER_" ++ u) ≠ s := by
  intro he
  have hl := congrArg String.length he
  rw [String.length_append] at hl
  have h28 : ("CONFLICT_WITH_SPECIFIC_USER_" : String).length = 28 := by decide
  omega

theorem mem_userFlags_very_high (now : Int) (p : UserProfile) :
    "VERY_HIGH_REVOKED_RATIO" ∈ (userCalculateSuspicionScore now p).2 ↔
      p.revokedRate > 1/2 := by
  rw [userFlags_eq, mem_rulesFlags]
  constructor
  · rintro ⟨r, hr, hfire, hname⟩
    simp [userRules, userHeadRows, userRateRows, userCountRows, userVandalRows,
      userConflictRows, userTailRows] at hr
    rcases hr with rfl | rfl | rfl | rfl | rfl | rfl | rfl | rfl | rfl | rfl | rfl | rfl |
        rfl | rfl | rfl
    all_goals simp_all
    · exact absurd hname (conflict_flag_ne _ _ (by decide))
  · intro h
    refine ⟨(decide (p.revokedRate > 1/2), 30, "VERY_HIGH_REVOKED_RATIO"), ?_, ?_, rfl⟩
    · simp [userRules, userHeadRows, userRateRows]
    · exact decide_eq_true h

theorem mem_userFlags_high (now : Int) (p : UserProfile) :
    "HIGH_REVOKED_RATIO" ∈ (userCalculateSuspicionScore now p).2 ↔
      (¬ p.revokedRate > 1/2 ∧ p.revokedRate > 3/10) := by
  rw [userFlags_eq, mem_rulesFlags]
  constructor
  · rintro ⟨r, hr, hfire, hname⟩
    simp [userRules, userHeadRows, userRateRows, userCountRows, userVandalRows,
      userConflictRows, userTailRows] at hr
    rcases hr with rfl | rfl | rfl | rfl | rfl | rfl | rfl | rfl | rfl | rfl | rfl | rfl |
        rfl | rfl | rfl
    all_goals simp_all
    · exact absurd hname (conflict_flag_ne _ _ (by decide))
  · intro h
    refine ⟨(!decide (p.revokedRate > 1/2) && decide (p.revokedRate > 3/10), 20,
      "HIGH_REVOKED_RATIO"), ?_, ?_, rfl⟩
    · simp [userRules, userHeadRows, userRateRows]
    · simp only [Bool.and_eq_true, Bool.not_eq_true']
      exact ⟨decide_eq_false h.1, decide_eq_true h.2⟩

theorem mem_userFlags_moderate (now : Int) (p : UserProfile) :
    "MODERATE_REVOKED_RATIO" ∈ (userCalculateSuspicionScore now p).2 ↔
      (¬ p.revokedRate > 1/2 ∧ ¬ p.revokedRate > 3/10 ∧ p.revokedRate > 1/5) := by
  rw [userFlags_eq, mem_rulesFlags]
  constructor
  · rintro ⟨r, hr, hfire, hname⟩
    simp [userRules, userHeadRows, userRateRows, userCountRows, userVandalRows,
      userConflictRows, userTailRows] at hr
    rcases hr with rfl | rfl | rfl | rfl | rfl | rfl | rfl | rfl | rfl | rfl | rfl | rfl |
        rfl | rfl | rfl
    all_goals simp_all
    · exact absurd hname (conflict_flag_ne _ _ (by decide))
  · intro h
    refine ⟨(!decide (p.revokedRate > 1/2) && !decide (p.revokedRate > 3/10) &&
        decide (p.revokedRate > 1/5), 10, "MODERATE_REVOKED_RATIO"), ?_, ?_, rfl⟩
    · simp [userRules, userHeadRows, userRateRows]
    · simp only [Bool.and_eq_true, Bool.not_eq_true']
      exact ⟨⟨decide_eq_false h.1, decide_eq_false h.2.1⟩, decide_eq_true h.2.2⟩

/-! ## Claim theorems -/

/-- C1, counterexample: on an edit whose author carries suspicion score
10 and for which no flagged rule fires, the edit-level scorer returns
score 5 with an empty flags list — weight was added to the score (the
author-score dilution) with no corresponding flag appended, refuting the
claimed exact correspondence between score contributions and flags. -/
theorem c1_unflagged_weight_counterexample :
    contributionCalculateSuspicionScore 0 exEditProfile = (5, []) ∧
      (contributionCalculateSuspicionScore 0 exEditProfile).1 ≠ 0 ∧
      (contributionCalculateSuspicionScore 0 exEditProfile).2 = [] := by
  have h5 : Int.tdiv (10 : Int) 2 = 5 := by decide
  have hb : ¬ ((0 : ℚ) > 3/10) := by norm_num
  refine ⟨?_, ?_, ?_⟩ <;>
    norm_num [contributionCalculateSuspicionScore, contribScoreAcc, authorStep,
      applyRule, exEditProfile, contribNewAccount, clamp100, h5, hb]

/-- C1 (amended): every one of the three suspicion scorers returns a
score in [0, 100]; the contributor-level and page-level scorers return
exactly the flags of their fired rules with the score the clamped sum of
the fired weights; the edit-level scorer does the same for its eight
flagged rules except that the author-score dilution (`authorBase`) is
added to the score without any flag. -/
theorem c1_scorer_bounds_and_flag_exactness (now : Int) (pE : ContributionProfile)
    (pU : UserProfile) (pP : PageProfile) :
    (0 ≤ (contributionCalculateSuspicionScore now pE).1 ∧
        (contributionCalculateSuspicionScore now pE).1 ≤ 100) ∧
      (0 ≤ (userCalculateSuspicionScore now pU).1 ∧
        (userCalculateSuspicionScore now pU).1 ≤ 100) ∧
      (0 ≤ (pageCalculateSuspicionScore now pP).1 ∧
        (pageCalculateSuspicionScore now pP).1 ≤ 100) ∧
      userCalculateSuspicionScore now pU =
        (clamp100 (rulesScore (userRules now pU)), rulesFlags (userRules now pU)) ∧
      pageCalculateSuspicionScore now pP =
        (clamp100 (rulesScore (pageRules now pP)), rulesFlags (pageRules now pP)) ∧
      contributionCalculateSuspicionScore now pE =
        (clamp100 (authorBase pE + rulesScore (contributionRules now pE)),
          rulesFlags (contributionRules now pE)) := by
  have hu := userScoreAcc_eq now pU
  have hp := pageScoreAcc_eq now pP
  have hc := contribScoreAcc_eq now pE
  have hun : 0 ≤ rulesScore (userRules now pU) :=
    rulesScore_nonneg _ (userRules_weights_nonneg now pU)
  have hpn : 0 ≤ rulesScore (pageRules now pP) :=
    rulesScore_nonneg _ (pageRules_weights_nonneg now pP)
  have hcn : 0 ≤ rulesScore (contributionRules now pE) :=
    rulesScore_nonneg _ (contributionRules_weights_nonneg now pE)
  have hca : 0 ≤ authorBase pE := authorBase_nonneg pE
  refine ⟨⟨?_, ?_⟩, ⟨?_, ?_⟩, ⟨?_, ?_⟩, ?_, ?_, ?_⟩
  · simp only [contributionCalculateSuspicionScore, hc]
    exact clamp100_nonneg _ (by omega)
  · simp only [contributionCalculateSuspicionScore, hc]
    exact clamp100_le _
  · simp only [userCalculateSuspicionScore, hu]
    exact clamp100_nonneg _ hun
  · simp only [userCalculateSuspicionScore, hu]
    exact clamp100_le _
  · simp only [pageCalculateSuspicionScore, hp]
    exact clamp100_nonneg _ hpn
  · simp only [pageCalculateSuspicionScore, hp]
    exact clamp100_le _
  · simp [userCalculateSuspicionScore, hu]
  · simp [pageCalculateSuspicionScore, hp]
  · simp [contributionCalculateSuspicionScore, hc]

/-- C7: the revoked-ratio bands of the contributor scorer are mutually
exclusive with the highest matching band winning; in particular a
revoked ratio of exactly 31/100 fires HIGH_REVOKED_RATIO and neither
VERY_HIGH_REVOKED_RATIO nor MODERATE_REVOKED_RATIO. -/
theorem c7_revoked_ratio_banding (now : Int) (p : UserProfile) :
    (p.revokedRate = 31/100 →
        "HIGH_REVOKED_RATIO" ∈ (userCalculateSuspicionScore now p).2 ∧
          "VERY_HIGH_REVOKED_RATIO" ∉ (userCalculateSuspicionScore now p).2 ∧
          "MODERATE_REVOKED_RATIO" ∉ (userCalculateSuspicionScore now p).2) ∧
      (p.revokedRate > 1/2 →
        "VERY_HIGH_REVOKED_RATIO" ∈ (userCalculateSuspicionScore now p).2 ∧
          "HIGH_REVOKED_RATIO" ∉ (userCalculateSuspicionScore now p).2 ∧
          "MODERATE_REVOKED_RATIO" ∉ (userCalculateSuspicionScore now p).2) ∧
      (¬ p.revokedRate > 1/2 → p.revokedRate > 3/10 →
        "HIGH_REVOKED_RATIO" ∈ (userCalculateSuspicionScore now p).2 ∧
          "VERY_HIGH_REVOKED_RATIO" ∉ (userCalculateSuspicionScore now p).2 ∧
          "MODERATE_REVOKED_RATIO" ∉ (userCalculateSuspicionScore now p).2) ∧
      (¬ p.revokedRate > 3/10 → p.revokedRate > 1/5 →
        "MODERATE_REVOKED_RATIO" ∈ (userCalculateSuspicionScore now p).2 ∧
          "VERY_HIGH_REVOKED_RATIO" ∉ (userCalculateSuspicionScore now p).2 ∧
          "HIGH_REVOKED_RATIO" ∉ (userCalculateSuspicionScore now p).2) := by
  have hv := mem_userFlags_very_high now p
  have hh := mem_userFlags_high now p
  have hm := mem_userFlags_moderate now p
  refine ⟨?_, ?_, ?_, ?_⟩
  · intro h31
    have h1 : ¬ p.revokedRate > 1/2 := by rw [h31]; norm_num
    have h2 : p.revokedRate > 3/10 := by rw [h31]; norm_num
    exact ⟨hh.2 ⟨h1, h2⟩, fun hmem => h1 (hv.1 hmem),
      fun hmem => absurd h2 (hm.1 hmem).2.1⟩
  · intro h
    refine ⟨hv.2 h, fun hmem => (hh.1 hmem).1 h, fun hmem => (hm.1 hmem).1 h⟩
  · intro h1 h2
    exact ⟨hh.2 ⟨h1, h2⟩, fun hmem => h1 (hv.1 hmem),
      fun hmem => absurd h2 (hm.1 hmem).2.1⟩
  · intro h1 h2
    have h0 : ¬ p.revokedRate > 1/2 := fun hg => h1 (by linarith)
    exact ⟨hm.2 ⟨h0, h1, h2⟩, fun hmem => h0 (hv.1 hmem),
      fun hmem => absurd (hh.1 hmem).2 h1⟩

/-! ## Helper lemmas: support-event search -/

theorem mem_take_iff_get? {α : Type} (l : List α) (n : Nat) (a : α) :
    a ∈ l.take n ↔ ∃ m, m < n ∧ l.get? m = some a := by
  constructor
  · intro ha
    obtain ⟨m, hm⟩ := List.mem_iff_get?.1 ha
    have hmn : m < n := by
      by_contra hc
      rw [List.get?_eq_getElem?, List.getElem?_take, if_neg hc] at hm
      exact Option.noConfusion hm
    refine ⟨m, hmn, ?_⟩
    rw [List.get?_eq_getElem?] at hm ⊢
    rw [List.getElem?_take, if_pos hmn] at hm
    exact hm
  · rintro ⟨m, hmn, hm⟩
    refine List.mem_iff_get?.2 ⟨m, ?_⟩
    rw [List.get?_eq_getElem?] at hm ⊢
    rw [List.getElem?_take, if_pos hmn]
    exact hm

theorem supportCandidate_eq_some (maxRT : Int) (userA userB : String)
    (e1 e2 : EditEvent) (ev : MutualSupportEvent) :
    supportCandidate maxRT userA userB e1 e2 = some ev ↔
      isSupportEvent e1 e2 userA userB = true ∧ reactionMinutes e1 e2 ≤ maxRT ∧
        ev = mkSupportEvent e1 e2 userA userB := by
  unfold supportCandidate
  split_ifs with h1 h2
  · simp [h1, h2, eq_comm]
  · simp [h1, h2]
  · simp [h1]

/-- Index characterization of findSupportEvents: an event is produced
exactly when some pair of positions (i, j) with 1 ≤ j - i ≤ 9 qualifies.
This pins the lookahead window to the next nine events. -/
theorem mem_findSupportEvents (maxRT : Int) (userA userB : String) :
    ∀ (revs : List EditEvent) (ev : MutualSupportEvent),
      ev ∈ findSupportEvents maxRT userA userB revs ↔
        ∃ i j e1 e2, i < j ∧ j ≤ i + 9 ∧ revs.get? i = some e1 ∧
          revs.get? j = some e2 ∧ isSupportEvent e1 e2 userA userB = true ∧
          reactionMinutes e1 e2 ≤ maxRT ∧ ev = mkSupportEvent e1 e2 userA userB := by
  intro revs
  induction revs with
  | nil =>
      intro ev
      simp [findSupportEvents]
  | cons e rest ih =>
      intro ev
      rw [findSupportEvents, List.mem_append, List.mem_filterMap, ih]
      constructor
      · rintro (⟨e2, he2, hcand⟩ | ⟨i, j, e1, e2, hij, hj9, h1, h2, hsupp, hrt, hev⟩)
        · obtain ⟨m, hm9, hgm⟩ := (mem_take_iff_get? rest 9 e2).1 he2
          obtain ⟨hsupp, hrt, hev⟩ := (supportCandidate_eq_some _ _ _ _ _ _).1 hcand
          exact ⟨0, m + 1, e, e2, by omega, by omega, rfl, by simpa using hgm,
            hsupp, hrt, hev⟩
        · exact ⟨i + 1, j + 1, e1, e2, by omega, by omega, by simpa using h1,
            by simpa using h2, hsupp, hrt, hev⟩
      · rintro ⟨i, j, e1, e2, hij, hj9, h1, h2, hsupp, hrt, hev⟩
        cases i with
        | zero =>
            left
            have he1 : e = e1 := by simpa using h1
            obtain ⟨j', rfl⟩ : ∃ j', j = j' + 1 := ⟨j - 1, by omega⟩
            refine ⟨e2, (mem_take_iff_get? rest 9 e2).2 ⟨j', by omega, by simpa using h2⟩, ?_⟩
            rw [supportCandidate_eq_some]
            rw [← he1] at hsupp hrt hev
            exact ⟨hsupp, hrt, hev⟩
        | succ i' =>
            right
            obtain ⟨j', rfl⟩ : ∃ j', j = j' + 1 := ⟨j - 1, by omega⟩
            exact ⟨i', j', e1, e2, by omega, by omega, by simpa using h1,
              by simpa using h2, hsupp, hrt, hev⟩

theorem isSupportEvent_username {e1 e2 : EditEvent} {userA userB : String}
    (h : isSupportEvent e1 e2 userA userB = true) :
    e2.username = userA ∨ e2.username = userB := by
  unfold isSupportEvent at h
  split_ifs at h with h1 h2 h3
  rw [or_iff_not_imp_left]
  simpa [not_and_or] using h3

theorem mkSupportEvent_defender_supported {e1 e2 : EditEvent} {userA userB : String}
    (h : isSupportEvent e1 e2 userA userB = true) :
    ((mkSupportEvent e1 e2 userA userB).defenderUser = userA ∧
        (mkSupportEvent e1 e2 userA userB).supportedUser = userB) ∨
      ((mkSupportEvent e1 e2 userA userB).defenderUser = userB ∧
        (mkSupportEvent e1 e2 userA userB).supportedUser = userA) := by
  rcases isSupportEvent_username h with hu | hu
  · left
    constructor
    · simpa [mkSupportEvent] using hu
    · simp [mkSupportEvent, determineSupportedUser, hu]
  · by_cases ha : e2.username = userA
    · left
      constructor
      · simpa [mkSupportEvent] using ha
      · simp [mkSupportEvent, determineSupportedUser, ha]
    · right
      constructor
      · simpa [mkSupportEvent] using hu
      · simp [mkSupportEvent, determineSupportedUser, ha, hu]

theorem countSupports_total (userA userB : String) :
    ∀ (events : List MutualSupportEvent) (acc : Int × Int),
      (∀ ev ∈ events,
        (ev.defenderUser = userA ∧ ev.supportedUser = userB) ∨
          (ev.defenderUser = userB ∧ ev.supportedUser = userA)) →
      (events.foldl (countSupportsStep userA userB) acc).1 +
          (events.foldl (countSupportsStep userA userB) acc).2 =
        acc.1 + acc.2 + events.length := by
  intro events
  induction events with
  | nil => intro acc _; simp
  | cons ev rest ih =>
      intro acc hall
      have hev := hall ev (List.mem_cons_self _ _)
      have hrest : ∀ x ∈ rest,
          (x.defenderUser = userA ∧ x.supportedUser = userB) ∨
            (x.defenderUser = userB ∧ x.supportedUser = userA) :=
        fun x hx => hall x (List.mem_cons_of_mem _ hx)
      rw [List.foldl_cons]
      by_cases hb : (ev.defenderUser == userA && ev.supportedUser == userB) = true
      · rw [show countSupportsStep userA userB acc ev = (acc.1 + 1, acc.2) by
          simp [countSupportsStep, hb]]
        have := ih (acc.1 + 1, acc.2) hrest
        simp at this ⊢
        omega
      · have hb2 : (ev.defenderUser == userB && ev.supportedUser == userA) = true := by
          rcases hev with ⟨hd, hs⟩ | ⟨hd, hs⟩
          · exact absurd (by simp [hd, hs]) hb
          · simp [hd, hs]
        rw [show countSupportsStep userA userB acc ev = (acc.1, acc.2 + 1) by
          simp [countSupportsStep, hb, hb2]]
        have := ih (acc.1, acc.2 + 1) hrest
        simp at this ⊢
        omega

theorem countSupports_sum (userA userB : String) (events : List MutualSupportEvent)
    (hall : ∀ ev ∈ events,
      (ev.defenderUser = userA ∧ ev.supportedUser = userB) ∨
        (ev.defenderUser = userB ∧ ev.supportedUser = userA)) :
    (countSupports events userA userB).1 + (countSupports events userA userB).2 =
      (events.length : Int) := by
  have h := countSupports_total userA userB events (0, 0) hall
  unfold countSupports
  simpa using h

theorem rate_of_all_mutual (userA userB : String) (events : List MutualSupportEvent)
    (hall : ∀ ev ∈ events,
      (ev.defenderUser = userA ∧ ev.supportedUser = userB) ∨
        (ev.defenderUser = userB ∧ ev.supportedUser = userA))
    (hne : events ≠ []) : calculateMutualSupportRate events userA userB = 1 := by
  have hlen : events.length ≠ 0 := fun h => hne (List.length_eq_zero.1 h)
  have hc := countSupports_sum userA userB events hall
  simp only [calculateMutualSupportRate]
  rw [if_neg hlen, hc, if_neg (by exact_mod_cast hlen)]
  exact div_self (by exact_mod_cast hlen)

theorem excl_of_all_mutual (userA userB : String) (events : List MutualSupportEvent)
    (hall : ∀ ev ∈ events,
      (ev.defenderUser = userA ∧ ev.supportedUser = userB) ∨
        (ev.defenderUser = userB ∧ ev.supportedUser = userA))
    (hne : events ≠ []) : calculateExclusivityRate events userA userB = 1 := by
  have hlen : events.length ≠ 0 := fun h => hne (List.length_eq_zero.1 h)
  unfold calculateExclusivityRate
  have hfilter : events.filter
      (fun ev =>
        (ev.defenderUser == userA && ev.supportedUser == userB) ||
          (ev.defenderUser == userB && ev.supportedUser == userA)) = events := by
    apply List.filter_eq_self.2
    intro ev hev
    rcases hall ev hev with ⟨hd, hs⟩ | ⟨hd, hs⟩ <;> simp [hd, hs]
  rw [hfilter, if_neg hlen]
  exact div_self (by exact_mod_cast hlen)

/-- C3 (amended): for each event e1 in the time-sorted event list, the
next up to NINE chronologically-later events (loop bound `j < i+10` with
j starting at i+1) are examined as candidate supporting edits; an event
is produced exactly when such a pair with 1 ≤ j - i ≤ 9 qualifies and
passes the reaction-time filter, so a qualifying supporting edit
separated from e1 by more than eight intervening events (relative
position 10 or later) produces no support event. -/
theorem c3_lookahead_window (maxRT : Int) (userA userB : String)
    (revs : List EditEvent) (ev : MutualSupportEvent) :
    ev ∈ findSupportEvents maxRT userA userB revs ↔
      ∃ i j e1 e2, i < j ∧ j ≤ i + 9 ∧ revs.get? i = some e1 ∧
        revs.get? j = some e2 ∧ isSupportEvent e1 e2 userA userB = true ∧
        reactionMinutes e1 e2 ≤ maxRT ∧ ev = mkSupportEvent e1 e2 userA userB :=
  mem_findSupportEvents maxRT userA userB revs ev

/-- C3, counterexample: an event list in which the qualifying supporting
edit sits at relative position 10 after the trigger (ten of the claimed
"next up to 10 chronologically-later events" away) yields NO support
events, refuting the claim that the next up to 10 later events are
examined. -/
theorem c3_lookahead_counterexample :
    findSupportEvents 60 "alice" "bob" exFarRevs = [] ∧
      exFarRevs.get? 0 = some exFarTrigger ∧
      exFarRevs.get? 10 = some exFarDefense ∧
      isSupportEvent exFarTrigger exFarDefense "alice" "bob" = true ∧
      reactionMinutes exFarTrigger exFarDefense ≤ 60 := by decide

/-- C4: every MutualSupportEvent placed in a pair's support events has
reaction time at most the configured maximum, and the zero-value options
default that maximum to 60 minutes. -/
theorem c4_reaction_time_filter (maxRT : Int) (userA userB : String)
    (revs : List EditEvent) :
    (∀ ev ∈ findSupportEvents maxRT userA userB revs, ev.reactionTime ≤ maxRT) ∧
      (applyCrossPageDefaults
        { maxRevisionsPerPage := 0, maxContributorsPerPage := 0, historyDays := 0,
          minCommonEdits := 0, maxReactionTime := 0,
          minMutualSupportRate := 0 }).maxReactionTime = 60 := by
  constructor
  · intro ev hev
    obtain ⟨i, j, e1, e2, _, _, _, _, _, hrt, hev⟩ :=
      (mem_findSupportEvents maxRT userA userB revs ev).1 hev
    subst hev
    simpa [mkSupportEvent] using hrt
  · rfl

/-- C4, witness: the filter theorem applied to a concrete event list that
produces one support event. -/
theorem c4_reaction_time_filter_witness : exSupportEvent.reactionTime ≤ 60 :=
  (c4_reaction_time_filter 60 "alice" "bob" exSupportRevs).1 exSupportEvent (by decide)

/-- C10: every support event accumulated for the pair (A, B) has its
defender equal to A or B and its supported user the other member;
consequently, whenever the pair has at least one support event, both the
mutual-support ratio and the exclusivity ratio equal exactly 1. -/
theorem c10_support_events_pair_invariant (maxRT : Int) (userA userB : String)
    (revs : List EditEvent) :
    (∀ ev ∈ findSupportEvents maxRT userA userB revs,
      (ev.defenderUser = userA ∧ ev.supportedUser = userB) ∨
        (ev.defenderUser = userB ∧ ev.supportedUser = userA)) ∧
      (findSupportEvents maxRT userA userB revs ≠ [] →
        calculateMutualSupportRate (findSupportEvents maxRT userA userB revs)
            userA userB = 1 ∧
          calculateExclusivityRate (findSupportEvents maxRT userA userB revs)
            userA userB = 1) := by
  have hall : ∀ ev ∈ findSupportEvents maxRT userA userB revs,
      (ev.defenderUser = userA ∧ ev.supportedUser = userB) ∨
        (ev.defenderUser = userB ∧ ev.supportedUser = userA) := by
    intro ev hev
    obtain ⟨i, j, e1, e2, _, _, _, _, hsupp, _, hev⟩ :=
      (mem_findSupportEvents maxRT userA userB revs ev).1 hev
    subst hev
    exact mkSupportEvent_defender_supported hsupp
  exact ⟨hall, fun hne =>
    ⟨rate_of_all_mutual userA userB _ hall hne, excl_of_all_mutual userA userB _ hall hne⟩⟩

/-- C10, witness: the invariant applied to a concrete pair with one
support event. -/
theorem c10_support_events_pair_invariant_witness :
    ((exSupportEvent.defenderUser = "alice" ∧ exSupportEvent.supportedUser = "bob") ∨
        (exSupportEvent.defenderUser = "bob" ∧ exSupportEvent.supportedUser = "alice")) ∧
      calculateMutualSupportRate (findSupportEvents 60 "alice" "bob" exSupportRevs)
          "alice" "bob" = 1 ∧
        calculateExclusivityRate (findSupportEvents 60 "alice" "bob" exSupportRevs)
          "alice" "bob" = 1 :=
  ⟨(c10_support_events_pair_invariant 60 "alice" "bob" exSupportRevs).1 exSupportEvent
      (by decide),
    (c10_support_events_pair_invariant 60 "alice" "bob" exSupportRevs).2 (by decide)⟩

/-! ## Helper lemmas: pair-order symmetry -/

theorem isSupportEvent_swap (e1 e2 : EditEvent) (userA userB : String) :
    isSupportEvent e1 e2 userA userB = isSupportEvent e1 e2 userB userA := by
  unfold isSupportEvent
  rw [show (e2.username != userA && e2.username != userB) =
      (e2.username != userB && e2.username != userA) from Bool.and_comm _ _]

theorem determineSupportedUser_swap (e1 e2 : EditEvent) (userA userB : String) :
    determineSupportedUser e1 e2 userA userB = determineSupportedUser e1 e2 userB userA := by
  unfold determineSupportedUser
  by_cases h1 : e2.username = userA <;> by_cases h2 : e2.username = userB <;> simp_all

theorem mkSupportEvent_swap (e1 e2 : EditEvent) (userA userB : String) :
    mkSupportEvent e1 e2 userA userB = mkSupportEvent e1 e2 userB userA := by
  unfold mkSupportEvent
  rw [determineSupportedUser_swap]

theorem supportCandidate_swap (maxRT : Int) (userA userB : String) (e1 e2 : EditEvent) :
    supportCandidate maxRT userA userB e1 e2 = supportCandidate maxRT userB userA e1 e2 := by
  unfold supportCandidate
  rw [isSupportEvent_swap, mkSupportEvent_swap]

theorem findSupportEvents_swap (maxRT : Int) (userA userB : String) :
    ∀ revs : List EditEvent,
      findSupportEvents maxRT userA userB revs = findSupportEvents maxRT userB userA revs := by
  intro revs
  induction revs with
  | nil => rfl
  | cons e rest ih =>
      rw [findSupportEvents, findSupportEvents, ih,
        show supportCandidate maxRT userA userB e = supportCandidate maxRT userB userA e from
          funext (supportCandidate_swap maxRT userA userB e)]

theorem countSupportsStep_swap {userA userB : String} (hab : userA ≠ userB)
    (acc : Int × Int) (ev : MutualSupportEvent) :
    Prod.swap (countSupportsStep userA userB acc ev) =
      countSupportsStep userB userA (Prod.swap acc) ev := by
  unfold countSupportsStep
  by_cases h1 : (ev.defenderUser == userA && ev.supportedUser == userB) = true
  · obtain ⟨hd, hs⟩ : ev.defenderUser = userA ∧ ev.supportedUser = userB := by
      simpa using h1
    have h2 : (ev.defenderUser == userB && ev.supportedUser == userA) = false := by
      simp only [hd, hs]
      simp [hab]
    simp [h1, h2, Prod.swap]
  · by_cases h2 : (ev.defenderUser == userB && ev.supportedUser == userA) = true
    · simp [h1, h2, Prod.swap]
    · simp [h1, h2]

theorem countSupports_swap {userA userB : String} (hab : userA ≠ userB) :
    ∀ (events : List MutualSupportEvent) (acc : Int × Int),
      events.foldl (countSupportsStep userA userB) acc =
        Prod.swap (events.foldl (countSupportsStep userB userA) (Prod.swap acc)) := by
  intro events
  induction events with
  | nil => intro acc; simp
  | cons ev rest ih =>
      intro acc
      rw [List.foldl_cons, List.foldl_cons, ih (countSupportsStep userA userB acc ev),
        countSupportsStep_swap hab]

theorem countSupports_sum_swap (userA userB : String) (events : List MutualSupportEvent) :
    (countSupports events userA userB).1 + (countSupports events userA userB).2 =
      (countSupports events userB userA).1 + (countSupports events userB userA).2 := by
  by_cases hab : userA = userB
  · subst hab; rfl
  · unfold countSupports
    rw [countSupports_swap hab events]
    simp [Prod.swap]
    omega

theorem rate_swap (userA userB : String) (events : List MutualSupportEvent) :
    calculateMutualSupportRate events userA userB =
      calculateMutualSupportRate events userB userA := by
  simp only [calculateMutualSupportRate, countSupports_sum_swap userA userB events]

theorem reciprocity_swap (userA userB : String) (events : List MutualSupportEvent) :
    calculateReciprocityScore events userA userB =
      calculateReciprocityScore events userB userA := by
  by_cases hab : userA = userB
  · subst hab; rfl
  · simp only [calculateReciprocityScore]
    unfold countSupports
    rw [countSupports_swap hab events,
      show (Prod.swap ((0 : Int), (0 : Int))) = ((0 : Int), (0 : Int)) from rfl]
    simp only [Prod.fst_swap, Prod.snd_swap]
    split_ifs <;> first
      | rfl
      | (exfalso; omega)
      | rw [min_comm, max_comm]

theorem exclusivity_swap (userA userB : String) (events : List MutualSupportEvent) :
    calculateExclusivityRate events userA userB =
      calculateExclusivityRate events userB userA := by
  simp only [calculateExclusivityRate]
  rw [show (fun ev : MutualSupportEvent =>
      (ev.defenderUser == userA && ev.supportedUser == userB) ||
        (ev.defenderUser == userB && ev.supportedUser == userA)) =
    (fun ev : MutualSupportEvent =>
      (ev.defenderUser == userB && ev.supportedUser == userA) ||
        (ev.defenderUser == userA && ev.supportedUser == userB))
    from funext fun ev => Bool.or_comm _ _]

/-- C6: evaluating a candidate pair in swapped order produces the same
support events, identical derived metrics, and the identical suspicion
level — the detection algorithm is not order-dependent in the pair's
components. -/
theorem c6_pair_order_symmetry (maxRT : Int) (userA userB : String)
    (revs : List EditEvent) :
    findSupportEvents maxRT userA userB revs = findSupportEvents maxRT userB userA revs ∧
      (∀ events : List MutualSupportEvent,
        calculateMutualSupportRate events userA userB =
            calculateMutualSupportRate events userB userA ∧
          calculateReciprocityScore events userA userB =
            calculateReciprocityScore events userB userA ∧
          calculateExclusivityRate events userA userB =
            calculateExclusivityRate events userB userA) ∧
      (evalPair maxRT revs (userA, userB)).map
          (fun pr => (pr.supportEvents, pr.mutualSupportRate, pr.averageReactionTime,
            pr.reciprocityScore, pr.exclusivityRate, pr.suspicionLevel)) =
        (evalPair maxRT revs (userB, userA)).map
          (fun pr => (pr.supportEvents, pr.mutualSupportRate, pr.averageReactionTime,
            pr.reciprocityScore, pr.exclusivityRate, pr.suspicionLevel)) := by
  refine ⟨findSupportEvents_swap maxRT userA userB revs,
    fun events => ⟨rate_swap userA userB events, reciprocity_swap userA userB events,
      exclusivity_swap userA userB events⟩, ?_⟩
  have he : findSupportEvents maxRT userB userA revs =
      findSupportEvents maxRT userA userB revs :=
    (findSupportEvents_swap maxRT userA userB revs).symm
  simp only [evalPair, he, rate_swap userA userB, reciprocity_swap userA userB,
    exclusivity_swap userA userB]
  by_cases hlen : (findSupportEvents maxRT userA userB revs).length = 0
  · simp [hlen]
  · simp only [if_neg hlen]
    split_ifs <;> simp

/-! ## Helper lemmas: edit-war windows -/

theorem filterMap_if_eq_map_filter {α β : Type} (q : α → Bool) (g : α → β) :
    ∀ l : List α,
      l.filterMap (fun a => if q a then some (g a) else none) = (l.filter q).map g := by
  intro l
  induction l with
  | nil => rfl
  | cons a t ih =>
      by_cases hq : q a <;> simp [List.filterMap_cons, List.filter_cons, hq, ih]

theorem get?_isSome_of_lt {α : Type} (l : List α) (i : Nat) (h : i < l.length) :
    ∃ a, l.get? i = some a := by
  rw [List.get?_eq_getElem?, List.getElem?_eq_getElem h]
  exact ⟨l[i], rfl⟩

theorem lt_length_of_get?_eq_some {α : Type} {l : List α} {i : Nat} {a : α}
    (h : l.get? i = some a) : i < l.length := by
  by_contra hc
  rw [List.get?_eq_getElem?, List.getElem?_eq_none (Nat.not_lt.1 hc)] at h
  exact Option.noConfusion h

theorem detectEditWarPeriods_eq_map_filter (revs : List WikiRev) :
    detectEditWarPeriods revs =
      ((List.range (revs.length - 4)).filter (fun i => warWindowQualifies revs i)).map
        (fun i => warPeriodAt revs i) := by
  unfold detectEditWarPeriods
  by_cases hlen : revs.length < 5
  · rw [if_pos hlen, show revs.length - 4 = 0 by omega]
    rfl
  · rw [if_neg hlen]
    rw [show ((List.range (revs.length - 4)).filterMap (fun i =>
        match revs.get? i, revs.get? (i + 4) with
        | some r0, some r4 =>
            if r4.timestamp - r0.timestamp ≤ 86400 then
              some (mkWarPeriod revs i r0 r4)
            else none
        | _, _ => none)) =
      ((List.range (revs.length - 4)).filterMap (fun i =>
        if warWindowQualifies revs i then some (warPeriodAt revs i) else none))
      from ?_]
    · exact filterMap_if_eq_map_filter _ _ _
    · apply List.filterMap_congr
      intro i hi
      have hi4 : i + 4 < revs.length := by
        have := List.mem_range.1 hi
        omega
      obtain ⟨r0, hr0⟩ := get?_isSome_of_lt revs i (by omega)
      obtain ⟨r4, hr4⟩ := get?_isSome_of_lt revs (i + 4) hi4
      rw [hr0, hr4]
      unfold warWindowQualifies warPeriodAt
      rw [hr0, hr4]
      dsimp only
      by_cases hspan : r4.timestamp - r0.timestamp ≤ 86400
      · rw [if_pos hspan, if_pos (decide_eq_true hspan)]
      · rw [if_neg hspan, if_neg (by simp [hspan])]

theorem mem_detectEditWarPeriods (revs : List WikiRev) (i : Nat) (r0 r4 : WikiRev)
    (h0 : revs.get? i = some r0) (h4 : revs.get? (i + 4) = some r4) :
    r4.timestamp - r0.timestamp ≤ 86400 ↔
      mkWarPeriod revs i r0 r4 ∈ detectEditWarPeriods revs := by
  have hi4 : i + 4 < revs.length := lt_length_of_get?_eq_some h4
  rw [detectEditWarPeriods_eq_map_filter]
  constructor
  · intro hspan
    refine List.mem_map.2 ⟨i, List.mem_filter.2 ⟨List.mem_range.2 (by omega), ?_⟩, ?_⟩
    · unfold warWindowQualifies
      rw [h0, h4]
      exact decide_eq_true hspan
    · unfold warPeriodAt
      rw [h0, h4]
  · intro hmem
    obtain ⟨j, hj, hpj⟩ := List.mem_map.1 hmem
    obtain ⟨hjr, hjq⟩ := List.mem_filter.1 hj
    have hj4 : j + 4 < revs.length := by
      have := List.mem_range.1 hjr
      omega
    obtain ⟨s0, hs0⟩ := get?_isSome_of_lt revs j (by omega)
    obtain ⟨s4, hs4⟩ := get?_isSome_of_lt revs (j + 4) hj4
    unfold warWindowQualifies at hjq
    rw [hs0, hs4] at hjq
    unfold warPeriodAt at hpj
    rw [hs0, hs4] at hpj
    have hstart := congrArg EditWarPeriod.startTime hpj
    have hend := congrArg EditWarPeriod.endTime hpj
    simp [mkWarPeriod] at hstart hend
    have hspanj : s4.timestamp - s0.timestamp ≤ 86400 := of_decide_eq_true hjq
    omega

/-- C5: fewer than five revisions yield no edit-war periods; for each
position of the sliding 5-revision window, a period for that window is
emitted exactly when its timestamp span is at most 24 hours, with
exactly one period per qualifying window and participants the distinct
actors of the five windowed revisions; concretely, five revisions by
three actors within one hour yield exactly one period with three
participants, and the same revisions spread over ten days yield none. -/
theorem c5_edit_war_windows (revs : List WikiRev) :
    (revs.length < 5 → detectEditWarPeriods revs = []) ∧
      (∀ i r0 r4, revs.get? i = some r0 → revs.get? (i + 4) = some r4 →
        (r4.timestamp - r0.timestamp ≤ 86400 ↔
          mkWarPeriod revs i r0 r4 ∈ detectEditWarPeriods revs)) ∧
      (detectEditWarPeriods revs).length =
        ((List.range (revs.length - 4)).filter (fun i => warWindowQualifies revs i)).length ∧
      (∀ p ∈ detectEditWarPeriods revs, ∃ i r0 r4,
        revs.get? i = some r0 ∧ revs.get? (i + 4) = some r4 ∧
          r4.timestamp - r0.timestamp ≤ 86400 ∧ p = mkWarPeriod revs i r0 r4) ∧
      (detectEditWarPeriods exWarRevs1 =
          [mkWarPeriod exWarRevs1 0 (exWar 0 "anna") (exWar 3600 "ben")] ∧
        (mkWarPeriod exWarRevs1 0 (exWar 0 "anna") (exWar 3600 "ben")).participants.length
            = 3) ∧
      detectEditWarPeriods exWarRevs2 = [] := by
  refine ⟨?_, mem_detectEditWarPeriods revs, ?_, ?_, by decide, by decide⟩
  · intro h
    unfold detectEditWarPeriods
    rw [if_pos h]
  · rw [detectEditWarPeriods_eq_map_filter, List.length_map]
  · intro p hp
    rw [detectEditWarPeriods_eq_map_filter] at hp
    obtain ⟨j, hj, hpj⟩ := List.mem_map.1 hp
    obtain ⟨hjr, hjq⟩ := List.mem_filter.1 hj
    have hj4 : j + 4 < revs.length := by
      have := List.mem_range.1 hjr
      omega
    obtain ⟨s0, hs0⟩ := get?_isSome_of_lt revs j (by omega)
    obtain ⟨s4, hs4⟩ := get?_isSome_of_lt revs (j + 4) hj4
    unfold warWindowQualifies at hjq
    rw [hs0, hs4] at hjq
    unfold warPeriodAt at hpj
    rw [hs0, hs4] at hpj
    exact ⟨j, s0, s4, hs0, hs4, of_decide_eq_true hjq, hpj.symm⟩

/-- C5, witness: the window theorem applied to the one-hour scenario. -/
theorem c5_edit_war_windows_witness :
    mkWarPeriod exWarRevs1 0 (exWar 0 "anna") (exWar 3600 "ben") ∈
      detectEditWarPeriods exWarRevs1 :=
  ((c5_edit_war_windows exWarRevs1).2.1 0 (exWar 0 "anna") (exWar 3600 "ben")
    (by decide) (by decide)).1 (by decide)

/-! ## Helper lemmas: detectMutualSupport output -/

theorem evalPair_some {maxRT : Int} {sortedRevs : List EditEvent}
    {pair : String × String} {pr : MutualSupportPair}
    (h : evalPair maxRT sortedRevs pair = some pr) :
    pr.suspicionLevel ≠ "NONE" ∧
      pr.suspicionLevel =
        determineSupportSuspicionLevel pr.mutualSupportRate
          (pr.averageReactionTime : ℚ) pr.reciprocityScore pr.exclusivityRate := by
  simp only [evalPair] at h
  split_ifs at h with h1 h2
  have := Option.some.inj h
  subst this
  exact ⟨h2, rfl⟩

theorem mem_detectMutualSupport {maxRT : Int} {contributors : List CommonContributor}
    {revisions : List EditEvent} {pr : MutualSupportPair}
    (h : pr ∈ detectMutualSupport maxRT contributors revisions) :
    ∃ pair, evalPair maxRT (List.insertionSort revTimeOrd revisions) pair = some pr := by
  simp only [detectMutualSupport] at h
  have h2 := (List.perm_insertionSort pairOrd _).mem_iff.1 h
  obtain ⟨pair, _, hp⟩ := List.mem_filterMap.1 h2
  exact ⟨pair, hp⟩

/-- Evaluation of detectMutualSupport on the concrete two-contributor,
two-event input. -/
theorem detectMutualSupport_concrete :
    detectMutualSupport 60 exContributors exSupportRevs = [exMutualPair] := by
  have hsort : List.insertionSort revTimeOrd exSupportRevs = exSupportRevs := by decide
  have hpairs : createUserPairs exContributors = [("alice", "bob")] := by decide
  have hfind : findSupportEvents 60 "alice" "bob" exSupportRevs = [exSupportEvent] := by
    decide
  have hcount : countSupports [exSupportEvent] "alice" "bob" = (1, 0) := by decide
  have hrate : calculateMutualSupportRate [exSupportEvent] "alice" "bob" = 1 := by
    simp [calculateMutualSupportRate, hcount]
  have hart : calculateAverageReactionTime [exSupportEvent] = 5 := by decide
  have hrec : calculateReciprocityScore [exSupportEvent] "alice" "bob" = 0 := by
    simp [calculateReciprocityScore, hcount]
  have hexc : calculateExclusivityRate [exSupportEvent] "alice" "bob" = 1 := by
    norm_num [calculateExclusivityRate, exSupportEvent]
  have hlvl : determineSupportSuspicionLevel 1 ((5 : Int) : ℚ) 0 1 = "VERY_HIGH" := by
    norm_num [determineSupportSuspicionLevel]
  have heval : evalPair 60 exSupportRevs ("alice", "bob") = some exMutualPair := by
    simp only [evalPair, hfind, hrate, hart, hrec, hexc]
    rw [if_neg (by decide)]
    simp only [hlvl]
    rw [if_pos (by decide)]
    rfl
  have hfm : List.filterMap (evalPair 60 exSupportRevs) [("alice", "bob")] =
      [exMutualPair] := by
    rw [List.filterMap_cons, heval]
    rfl
  simp only [detectMutualSupport, hsort, hpairs, hfm]
  rfl

/-- C2: the pair suspicion level stored on every returned pair is the
pure banded function of its four metrics and is never NONE; the returned
list is sorted descending by (suspicion-level score, mutual-support
ratio); and the code's banded classifier agrees everywhere with the
spec's banded point table. -/
theorem c2_mutual_support_output (maxRT : Int) (contributors : List CommonContributor)
    (revisions : List EditEvent) :
    (∀ pr ∈ detectMutualSupport maxRT contributors revisions,
        pr.suspicionLevel ≠ "NONE") ∧
      List.Sorted pairOrd (detectMutualSupport maxRT contributors revisions) ∧
      (∀ pr ∈ detectMutualSupport maxRT contributors revisions,
        pr.suspicionLevel =
          determineSupportSuspicionLevel pr.mutualSupportRate
            (pr.averageReactionTime : ℚ) pr.reciprocityScore pr.exclusivityRate) ∧
      (∀ m a r e : ℚ, determineSupportSuspicionLevel m a r e = specSuspicionLevel m a r e) := by
  refine ⟨?_, ?_, ?_, ?_⟩
  · intro pr hpr
    obtain ⟨pair, hp⟩ := mem_detectMutualSupport hpr
    exact (evalPair_some hp).1
  · simp only [detectMutualSupport]
    exact List.sorted_insertionSort pairOrd _
  · intro pr hpr
    obtain ⟨pair, hp⟩ := mem_detectMutualSupport hpr
    exact (evalPair_some hp).2
  · intro m a r e
    unfold determineSupportSuspicionLevel specSuspicionLevel
    norm_num

/-- C2, witness: the output theorem applied to a concrete input that
produces one pair. -/
theorem c2_mutual_support_output_witness : exMutualPair.suspicionLevel ≠ "NONE" :=
  (c2_mutual_support_output 60 exContributors exSupportRevs).1 exMutualPair
    (by rw [detectMutualSupport_concrete]; exact List.mem_singleton.2 rfl)

/-! ## Helper lemmas: revoked-contribution resolver -/

theorem temporalPass_decomp (lang : String) :
    ∀ (l : List WikiContribution) (acc : List RevokedContribution),
      ∃ added, temporalPass lang l acc = acc ++ added ∧
        ∀ rc ∈ added,
          rc.originalContrib.revID ∉ acc.map (fun r => r.originalContrib.revID)
  | [], acc => ⟨[], by rw [temporalPass]; simp, by simp⟩
  | [c], acc => ⟨[], by rw [temporalPass]; simp, by simp⟩
  | c :: next :: rest, acc => by
      rw [temporalPass]
      split_ifs with hskip hcand
      · exact temporalPass_decomp lang (next :: rest) acc
      · obtain ⟨added, h1, h2⟩ :=
          temporalPass_decomp lang (next :: rest) (acc ++ [temporalRecord lang c next])
        refine ⟨temporalRecord lang c next :: added, ?_, ?_⟩
        · rw [h1, List.append_assoc, List.singleton_append]
        · intro rc hrc
          rcases List.mem_cons.1 hrc with rfl | hrc
          · intro hmem
            obtain ⟨r, hr, hid⟩ := List.mem_map.1 hmem
            exact hskip (List.any_eq_true.2 ⟨r, hr, by
              simp [temporalRecord] at hid
              simp [hid]⟩)
          · intro hmem
            exact h2 rc hrc (by
              rw [List.map_append]
              exact List.mem_append_left _ hmem)
      · exact temporalPass_decomp lang (next :: rest) acc

theorem temporalPass_nodup (lang : String) :
    ∀ (l : List WikiContribution) (acc : List RevokedContribution),
      (acc.map (fun r => r.originalContrib.revID)).Nodup →
      ((temporalPass lang l acc).map (fun r => r.originalContrib.revID)).Nodup
  | [], acc => by rw [temporalPass]; exact id
  | [_], acc => by rw [temporalPass]; exact id
  | c :: next :: rest, acc => by
      intro h
      rw [temporalPass]
      split_ifs with hskip hcand
      · exact temporalPass_nodup lang (next :: rest) acc h
      · refine temporalPass_nodup lang (next :: rest) _ ?_
        rw [List.map_append]
        simp only [List.map_cons, List.map_nil]
        rw [List.nodup_append]
        refine ⟨h, List.nodup_singleton _, ?_⟩
        intro x hx hx2
        simp only [temporalRecord, List.mem_singleton] at hx2
        subst hx2
        exact hskip (List.any_eq_true.2 (by
          obtain ⟨r, hr, hid⟩ := List.mem_map.1 hx
          exact ⟨r, hr, by simp [hid]⟩))
      · exact temporalPass_nodup lang (next :: rest) acc h

theorem tagPass_ids_sublist (lang : String) :
    ∀ contributions : List WikiContribution,
      ((tagPass lang contributions).map (fun r => r.originalContrib.revID)).Sublist
        (contributions.map (fun c => c.revID)) := by
  intro l
  induction l with
  | nil => simp [tagPass]
  | cons c t ih =>
      simp only [tagPass, List.filterMap_cons] at ih ⊢
      split_ifs with hc
      · simpa [tagRecord] using ih.cons₂ c.revID
      · exact ih.cons c.revID

/-- C8 (amended): within detectDirectRevocations (tag-based and
temporal/size-based strategies), at most one record is produced per
original revision id — the temporal pass skips revisions already
detected, so the first-detected (tag) record wins.  (The page-history
probing strategy appends its records without this de-duplication; see
the counterexample.) -/
theorem c8_direct_detection_dedup (lang : String) (contributions : List WikiContribution)
    (h : (contributions.map (fun c => c.revID)).Nodup) :
    ((detectDirectRevocations lang contributions).map
        (fun r => r.originalContrib.revID)).Nodup ∧
      ∃ added, detectDirectRevocations lang contributions =
          tagPass lang contributions ++ added ∧
        ∀ rc ∈ added, rc.originalContrib.revID ∉
          (tagPass lang contributions).map (fun r => r.originalContrib.revID) := by
  constructor
  · exact temporalPass_nodup lang contributions (tagPass lang contributions)
      (((tagPass_ids_sublist lang contributions)).nodup h)
  · exact temporalPass_decomp lang contributions (tagPass lang contributions)

/-- C8, witness: the de-duplication theorem applied to the concrete
one-contribution input. -/
theorem c8_direct_detection_dedup_witness :
    ((detectDirectRevocations "en" [exC8Contribution]).map
        (fun r => r.originalContrib.revID)).Nodup ∧
      ∃ added, detectDirectRevocations "en" [exC8Contribution] =
          tagPass "en" [exC8Contribution] ++ added ∧
        ∀ rc ∈ added, rc.originalContrib.revID ∉
          (tagPass "en" [exC8Contribution]).map (fun r => r.originalContrib.revID) :=
  c8_direct_detection_dedup "en" [exC8Contribution] (by decide)

/-- C8, counterexample: with deep analysis enabled, a contribution that
is detected both by its mw-reverted tag and by the page-history probing
strategy yields TWO RevokedContribution records with the same original
revision id 123, refuting "at most one record per original revision id
across all three detection strategies". -/
theorem c8_cross_strategy_duplicate_counterexample :
    (analyzeRevokedContributions "en" 5000 exC8Fetch "alice" [exC8Contribution]
        exC8Config).map (fun r => (r.originalContrib.revID, r.revokedBy)) =
      [(123, "system_detected"), (123, "bob")] := by decide

/-! ## Helper lemmas: the cross-page run -/

theorem mem_keys_of_any {β : Type} {l : List (String × β)} {k : String}
    (h : l.any (fun e => e.1 == k) = true) : k ∈ l.map Prod.fst := by
  obtain ⟨e, he, hek⟩ := List.any_eq_true.1 h
  exact List.mem_map.2 ⟨e, he, eq_of_beq hek⟩

theorem not_mem_keys_of_not_any {β : Type} {l : List (String × β)} {k : String}
    (h : ¬ l.any (fun e => e.1 == k) = true) : k ∉ l.map Prod.fst := by
  intro hk
  obtain ⟨e, he, hek⟩ := List.mem_map.1 hk
  exact h (List.any_eq_true.2 ⟨e, he, by simp [hek]⟩)

theorem assocSet_keys {β : Type} (l : List (String × β)) (k : String) (v : β) :
    ((assocSet l k v).map Prod.fst).toFinset = (l.map Prod.fst).toFinset ∪ {k} ∧
      ((l.map Prod.fst).Nodup → ((assocSet l k v).map Prod.fst).Nodup) := by
  unfold assocSet
  by_cases hmem : l.any (fun e => e.1 == k) = true
  · have hk := mem_keys_of_any hmem
    have hkeys : (l.map (fun e => if e.1 == k then (k, v) else e)).map Prod.fst =
        l.map Prod.fst := by
      rw [List.map_map]
      apply List.map_congr_left
      intro e _
      by_cases h : e.1 = k
      · simp [h]
      · simp [h]
    rw [if_pos hmem, hkeys]
    refine ⟨?_, id⟩
    rw [Finset.union_eq_left.2 (by simpa using hk)]
  · have hk := not_mem_keys_of_not_any hmem
    rw [if_neg hmem, List.map_append]
    constructor
    · simp [List.toFinset_append]
    · intro hnd
      rw [List.nodup_append]
      exact ⟨hnd, List.nodup_singleton _, by simpa using fun h2 => hk h2⟩

theorem contribUpsert_keys (page : String) (acc : List (String × CommonContributor))
    (tc : TopContributor) :
    ((contribUpsert page acc tc).map Prod.fst).toFinset =
        (acc.map Prod.fst).toFinset ∪ {tc.username} ∧
      ((acc.map Prod.fst).Nodup → ((contribUpsert page acc tc).map Prod.fst).Nodup) := by
  unfold contribUpsert
  by_cases hmem : acc.any (fun e => e.1 == tc.username) = true
  · have hk := mem_keys_of_any hmem
    have hkeys : (acc.map (fun e =>
        if e.1 == tc.username then (e.1, updateCommon page tc e.2) else e)).map Prod.fst =
        acc.map Prod.fst := by
      rw [List.map_map]
      apply List.map_congr_left
      intro e _
      by_cases h : e.1 = tc.username
      · simp [h]
      · simp [h]
    rw [if_pos hmem, hkeys]
    refine ⟨?_, id⟩
    rw [Finset.union_eq_left.2 (by simpa using hk)]
  · have hk := not_mem_keys_of_not_any hmem
    rw [if_neg hmem, List.map_append]
    constructor
    · simp [List.toFinset_append]
    · intro hnd
      rw [List.nodup_append]
      exact ⟨hnd, List.nodup_singleton _, by simpa using fun h2 => hk h2⟩

theorem contribUpsert_usernames (page : String) (acc : List (String × CommonContributor))
    (tc : TopContributor) (h : ∀ e ∈ acc, e.2.username = e.1) :
    ∀ e ∈ contribUpsert page acc tc, e.2.username = e.1 := by
  unfold contribUpsert
  split_ifs with hmem
  · intro e he
    obtain ⟨e0, he0, rfl⟩ := List.mem_map.1 he
    by_cases h0 : (e0.1 == tc.username) = true
    · rw [if_pos h0]
      simp [updateCommon, h e0 he0]
    · rw [if_neg h0]
      exact h e0 he0
  · intro e he
    rcases List.mem_append.1 he with he | he
    · exact h e he
    · simp only [List.mem_singleton] at he
      subst he
      rfl

theorem extractContributors_spec (page : String) :
    ∀ (tcs : List TopContributor) (acc : List (String × CommonContributor)),
      ((tcs.foldl (contribUpsert page) acc).map Prod.fst).toFinset =
          (acc.map Prod.fst).toFinset ∪ (tcs.map (fun tc => tc.username)).toFinset ∧
        ((acc.map Prod.fst).Nodup →
          ((tcs.foldl (contribUpsert page) acc).map Prod.fst).Nodup) ∧
        ((∀ e ∈ acc, e.2.username = e.1) →
          ∀ e ∈ tcs.foldl (contribUpsert page) acc, e.2.username = e.1) := by
  intro tcs
  induction tcs with
  | nil => intro acc; simp
  | cons tc rest ih =>
      intro acc
      rw [List.foldl_cons]
      obtain ⟨ihf, ihn, ihu⟩ := ih (contribUpsert page acc tc)
      obtain ⟨hf, hn⟩ := contribUpsert_keys page acc tc
      refine ⟨?_, ?_, ?_⟩
      · rw [ihf, hf, List.map_cons, List.toFinset_cons]
        ext x
        simp
        tauto
      · intro hnd
        exact ihn (hn hnd)
      · intro hu
        exact ihu (contribUpsert_usernames page acc tc hu)

theorem okNames_cons (fetch : String → Option PageProfile) (n : String)
    (rest : List String) :
    okNames fetch (n :: rest) =
      if (fetch n).isSome then n :: okNames fetch rest else okNames fetch rest := by
  simp [okNames, List.filter_cons]

theorem successUsernames_cons_some (fetch : String → Option PageProfile) (n : String)
    (rest : List String) (prof : PageProfile) (h : fetch n = some prof) :
    successUsernames fetch (n :: rest) =
      prof.contributors.map (fun tc => tc.username) ++ successUsernames fetch rest := by
  simp [successUsernames, List.filterMap_cons, h]

theorem successUsernames_cons_none (fetch : String → Option PageProfile) (n : String)
    (rest : List String) (h : fetch n = none) :
    successUsernames fetch (n :: rest) = successUsernames fetch rest := by
  simp [successUsernames, List.filterMap_cons, h]

set_option maxHeartbeats 1600000 in
theorem analyzeFold_spec (fetch : String → Option PageProfile) :
    ∀ (names : List String)
      (st0 : List (String × PageProfile) × List (String × CommonContributor) ×
        List EditEvent),
      ((names.foldl (analyzePageStep fetch) st0).1.map Prod.fst).toFinset =
          (st0.1.map Prod.fst).toFinset ∪ (okNames fetch names).toFinset ∧
        ((st0.1.map Prod.fst).Nodup →
          ((names.foldl (analyzePageStep fetch) st0).1.map Prod.fst).Nodup) ∧
        ((names.foldl (analyzePageStep fetch) st0).2.1.map Prod.fst).toFinset =
          (st0.2.1.map Prod.fst).toFinset ∪ (successUsernames fetch names).toFinset ∧
        ((st0.2.1.map Prod.fst).Nodup →
          ((names.foldl (analyzePageStep fetch) st0).2.1.map Prod.fst).Nodup) ∧
        ((∀ e ∈ st0.2.1, e.2.username = e.1) →
          ∀ e ∈ (names.foldl (analyzePageStep fetch) st0).2.1, e.2.username = e.1) := by
  intro names
  induction names with
  | nil =>
      intro st0
      simp [okNames, successUsernames]
  | cons n rest ih =>
      intro st0
      rw [List.foldl_cons]
      cases hf : fetch n with
      | none =>
          have hstep : analyzePageStep fetch st0 n = st0 := by
            unfold analyzePageStep
            rw [hf]
          rw [hstep, okNames_cons, successUsernames_cons_none fetch n rest hf]
          rw [show ((fetch n).isSome : Bool) = false by rw [hf]; rfl]
          simpa using ih st0
      | some prof =>
          have hstep : analyzePageStep fetch st0 n =
              (assocSet st0.1 n prof, extractContributors prof n st0.2.1,
                st0.2.2 ++ extractRevisions prof n) := by
            unfold analyzePageStep
            rw [hf]
          rw [hstep, okNames_cons, successUsernames_cons_some fetch n rest prof hf]
          rw [if_pos (show ((fetch n).isSome : Bool) = true by rw [hf]; rfl)]
          obtain ⟨ihf, ihn, ihcf, ihcn, ihcu⟩ :=
            ih (assocSet st0.1 n prof, extractContributors prof n st0.2.1,
              st0.2.2 ++ extractRevisions prof n)
          obtain ⟨haf, han⟩ := assocSet_keys st0.1 n prof
          obtain ⟨hcf, hcn, hcu⟩ :=
            extractContributors_spec n prof.contributors st0.2.1
          simp only [extractContributors] at ihf ihn ihcf ihcn ihcu ⊢
          refine ⟨?_, ?_, ?_, ?_, ?_⟩
          · rw [ihf, haf, List.toFinset_cons]
            ext x
            simp
            tauto
          · intro hnd
            exact ihn (han hnd)
          · rw [ihcf, hcf, List.toFinset_append]
            try ext x
            try simp
            try tauto
          · intro hnd
            exact ihcn (hcn hnd)
          · intro hu
            exact ihcu (hcu hu)

/-- C9: AnalyzePages never returns an error; a page whose fetch fails is
skipped, TotalPages counts exactly the distinct successfully analyzed
page names, TotalContributors counts exactly the distinct contributor
usernames of the successfully analyzed pages, and every reported common
contributor comes from a successfully analyzed page. -/
theorem c9_failed_pages_skipped (fetch : String → Option PageProfile)
    (options : CrossPageAnalysisOptions) (pageNames : List String) :
    ∃ a, analyzePages fetch options pageNames = Except.ok a ∧
      a.totalPages = ((okNames fetch pageNames).toFinset.card : Int) ∧
      a.totalContributors = ((successUsernames fetch pageNames).toFinset.card : Int) ∧
      ∀ c ∈ a.commonContributors, c.username ∈ successUsernames fetch pageNames := by
  obtain ⟨hpf, hpn, hcf, hcn, hcu⟩ :=
    analyzeFold_spec fetch pageNames (([], [], []))
  simp only [List.map_nil, List.toFinset_nil, Finset.empty_union, List.nodup_nil,
    forall_const] at hpf hpn hcf hcn
  have hcu2 : ∀ e ∈ (pageNames.foldl (analyzePageStep fetch) ([], [], [])).2.1,
      e.2.username = e.1 := hcu (by simp)
  refine ⟨_, rfl, ?_, ?_, ?_⟩
  · show ((pageNames.foldl (analyzePageStep fetch) ([], [], [])).1.length : Int) = _
    congr 1
    calc (pageNames.foldl (analyzePageStep fetch) ([], [], [])).1.length
        = ((pageNames.foldl (analyzePageStep fetch) ([], [], [])).1.map Prod.fst).length :=
          (List.length_map _ _).symm
      _ = ((pageNames.foldl (analyzePageStep fetch) ([], [], [])).1.map
            Prod.fst).toFinset.card := (List.toFinset_card_of_nodup hpn).symm
      _ = (okNames fetch pageNames).toFinset.card := by rw [hpf]
  · show ((pageNames.foldl (analyzePageStep fetch) ([], [], [])).2.1.length : Int) = _
    congr 1
    calc (pageNames.foldl (analyzePageStep fetch) ([], [], [])).2.1.length
        = ((pageNames.foldl (analyzePageStep fetch) ([], [], [])).2.1.map
            Prod.fst).length := (List.length_map _ _).symm
      _ = ((pageNames.foldl (analyzePageStep fetch) ([], [], [])).2.1.map
            Prod.fst).toFinset.card := (List.toFinset_card_of_nodup hcn).symm
      _ = (successUsernames fetch pageNames).toFinset.card := by rw [hcf]
  · intro c hc
    show c.username ∈ successUsernames fetch pageNames
    have hc2 : c ∈ ((pageNames.foldl (analyzePageStep fetch) ([], [], [])).2.1.map
        (fun e => e.2)).filter (fun c =>
          decide (c.pagesEdited.length > 1) || decide (c.totalEdits ≥ options.minCommonEdits)) := by
      have hperm := List.perm_insertionSort totalEditsOrd
        (((pageNames.foldl (analyzePageStep fetch) ([], [], [])).2.1.map
          (fun e => e.2)).filter (fun c =>
            decide (c.pagesEdited.length > 1) ||
              decide (c.totalEdits ≥ options.minCommonEdits)))
      exact hperm.mem_iff.1 hc
    have hc3 := List.mem_of_mem_filter hc2
    obtain ⟨e, he, rfl⟩ := List.mem_map.1 hc3
    have hkey : e.1 ∈ ((pageNames.foldl (analyzePageStep fetch) ([], [], [])).2.1.map
        Prod.fst) := List.mem_map.2 ⟨e, he, rfl⟩
    have hkey2 : e.1 ∈ (successUsernames fetch pageNames).toFinset := by
      rw [← hcf]
      exact List.mem_toFinset.2 hkey
    rw [hcu2 e he]
    exact List.mem_toFinset.1 hkey2

/-- C7, witness: the banding theorem applied to a concrete profile with
revoked ratio exactly 31/100. -/
theorem c7_revoked_ratio_banding_witness :
    "HIGH_REVOKED_RATIO" ∈ (userCalculateSuspicionScore 0 exUserProfileC7).2 ∧
      "VERY_HIGH_REVOKED_RATIO" ∉ (userCalculateSuspicionScore 0 exUserProfileC7).2 ∧
      "MODERATE_REVOKED_RATIO" ∉ (userCalculateSuspicionScore 0 exUserProfileC7).2 :=
  (c7_revoked_ratio_banding 0 exUserProfileC7).1 rfl

end WikiAnalyser
